import Mathlib

/-!
# recvsendfd: descriptor handoff over a local datagram socket

A shallow embedding of `src/recvsendfd.c`.  Each C function becomes a Lean
function of the same name.  System calls are not executed: the value each
call returns is an input of the embedding (an oracle), and the calls a
function makes are recorded, in order, as a list of `Ev`.

* C strings are `List Char` (the characters before the terminating NUL),
  a pointer that may be `NULL` is an `Option`.
* `int` values are `Int`; where an `int` is stored in bytes it is reduced
  modulo `2 ^ 32`.
* Constants and macros of `<sys/socket.h>`, `<sys/un.h>`, `<unistd.h>`,
  `<signal.h>` have their Linux LP64 (glibc) values.
-/

namespace RecvSendFd

/-! ## Constants of the platform headers -/

def STDOUT_FILENO : Int := 1
def STDERR_FILENO : Int := 2
def EXIT_SUCCESS : Int := 0
def EXIT_FAILURE : Int := 1
def SIGINT : Int := 2
def SIGTERM : Int := 15
def SOL_SOCKET : Int := 1
def SCM_RIGHTS : Int := 1
/-- The terminating character of a C string. -/
def NUL : Char := Char.ofNat 0

/-! ## Recorded calls -/

/-- The calls whose order the properties below speak about.  `test`,
`signal` and `child` are not calls: they record an evaluation of the loop
condition `while(isRunning)`, a run of `SignalHandler`, and the creation of
a child process by a successful `fork`. -/
inductive Ev where
  | test (isRunning : Int)
  | signal (sig : Int)
  | receive (sock : Int)
  | fork
  | child (receivedDescriptor slot : Int) (childArgv : List (List Char))
  | copyStream (outputStream inputStream : Int) (bufferSize : Nat)
  | close (fd : Int)
  | dup2 (oldfd newfd : Int)
  | execvp (file : Option (List Char)) (argv : List (List Char))
  | read (fd : Int) (count : Nat)
  | write (fd : Int) (data : List Char)
  | openRdonly (path : List Char)
  | socket
  | connect (sock : Int) (sunPath : List Char)
  | sendmsg (sock descriptor : Int)
  | recvmsg (sock : Int)
  | exit (status : Int)
  deriving DecidableEq, Repr

/-- `LogError(msg)`: the message and a newline on standard error. -/
def LogError (msg : List Char) : List Ev :=
  [Ev.write STDERR_FILENO msg, Ev.write STDERR_FILENO [Char.ofNat 10]]

/-- `LogErrno()`: `LogError(strerror(errno))`; the text of the message is
the platform's, `strerror` is its parameter. -/
def LogErrno (strerror : List Char) : List Ev :=
  LogError strerror

/-- `Die(msg)`: log and `exit(EXIT_FAILURE)`; nothing runs after it. -/
def Die (msg : List Char) : List Ev :=
  LogError msg ++ [Ev.exit EXIT_FAILURE]

/-! ## CopyStream -/

/-- What one `read(inputStream, buffer, bufferSize)` leaves behind: the
value stored in `bytesReceived` and the contents of `buffer`. -/
structure ReadResult where
  bytesReceived : Int
  buffer : List Char
  deriving DecidableEq, Repr

/-- `CopyStream(outputStream, inputStream, bufferSize)` against the results
of the successive `read` calls.  `none` when the list of results ends while
the loop is still asking for more (the next `read` never returns). -/
def CopyStream (strerror : List Char) (outputStream inputStream : Int) (bufferSize : Nat) :
    List ReadResult → Option (List Ev)
  | [] => none
  | r :: rest =>
    if r.bytesReceived > 0 then
      (CopyStream strerror outputStream inputStream bufferSize rest).map
        (fun t => Ev.read inputStream bufferSize ::
          Ev.write outputStream (r.buffer.take r.bytesReceived.toNat) :: t)
    else
      some (Ev.read inputStream bufferSize ::
        (if r.bytesReceived < 0 then LogErrno strerror else []))

/-- A `read` that returns the chunk `c`: `c.length` bytes, at the start of
the buffer. -/
def readChunk (c : List Char) : ReadResult :=
  { bytesReceived := c.length, buffer := c }

def isRead : Ev → Bool
  | Ev.read _ _ => true
  | _ => false

/-- Number of `read` calls in a trace. -/
def readCount (t : List Ev) : Nat :=
  t.countP isRead

/-- The descriptor and data of a `write` call. -/
def writeOf : Ev → Option (Int × List Char)
  | Ev.write f d => some (f, d)
  | _ => none

/-- Every `write` call of a trace, as (descriptor, data), in order. -/
def writes (t : List Ev) : List (Int × List Char) :=
  t.filterMap writeOf

/-! ## Channel endpoints: CreateSock and Connect -/

/-- `sizeof(address.sun_path)` of `struct sockaddr_un`. -/
def sunPathSize : Nat := 108

/-- The error a failed call leaves in `errno`, as far as the properties
below tell errors apart. -/
inductive Errno where
  | EADDRINUSE
  | other (code : Nat)
  deriving DecidableEq, Repr

/-- The filesystem: the paths at which an object exists. -/
abbrev FS := List (List Char)

/-- `unlink(path)`: the object at `path`, if there is one, is gone
afterwards.  The code ignores the result of the call. -/
def unlink (fs : FS) (path : List Char) : FS :=
  fs.filter (fun p => decide (p ≠ path))

/-- `strncpy(dest, src, n)` on the character buffer `dest`: its first `n`
characters become those of `src`, padded with NUL when `src` is shorter; no
NUL is written when `src` has `n` characters or more; the characters of
`dest` from position `n` on are left as they were. -/
def strncpy (dest src : List Char) (n : Nat) : List Char :=
  src.take n ++ List.replicate (n - src.length) NUL ++ dest.drop n

/-- The string a character buffer holds: the characters before the first
NUL, the whole buffer when it has none. -/
def cString (buffer : List Char) : List Char :=
  buffer.takeWhile (fun c => decide (c ≠ NUL))

/-- `bind` to a filesystem address: it fails with address-already-in-use
exactly when an object exists at the address it is given; `otherFailure` is
any other cause of failure (permissions, a missing directory); on success
the socket object exists at the address. -/
def bind (fs : FS) (address : List Char) (otherFailure : Option Nat) : Except Errno FS :=
  if address ∈ fs then Except.error Errno.EADDRINUSE
  else match otherFailure with
    | some code => Except.error (Errno.other code)
    | none => Except.ok (address :: fs)

/-- What `CreateSock` runs against: the filesystem, the value `socket`
returns (and the error code when that is -1), a cause of failure of `bind`
other than an occupied address, and the contents of the uninitialised
`address.sun_path` (`sunPathSize` characters of stack). -/
structure SockEnv where
  fs : FS
  socketRet : Int
  socketErrno : Nat
  bindFailure : Option Nat
  stack : List Char
  deriving Repr

/-- Result of `CreateSock`: the value returned, the `errno` that `LogErrno`
reported (if it was called), the address given to `bind` (if `bind` was
called), and the filesystem afterwards. -/
structure SockResult where
  sock : Int
  errno : Option Errno
  boundAddress : Option (List Char)
  fs : FS
  deriving Repr

/-- `CreateSock(path)`. -/
def CreateSock (env : SockEnv) (path : List Char) : SockResult :=
  let fs := unlink env.fs path
  let sock := env.socketRet
  if sock ≠ -1 then
    let sun_path := strncpy env.stack path (sunPathSize - 1)
    match bind fs (cString sun_path) env.bindFailure with
    | Except.error e =>
      { sock := -1, errno := some e, boundAddress := some (cString sun_path), fs := fs }
    | Except.ok fs1 =>
      { sock := sock, errno := none, boundAddress := some (cString sun_path), fs := fs1 }
  else
    { sock := sock, errno := some (Errno.other env.socketErrno), boundAddress := none, fs := fs }

/-- How a call ends: it returns a value, or the process is killed by an
access to memory outside every object (`fault`, with the address). -/
inductive Outcome where
  | returned (value : Int)
  | fault (address : Nat)
  deriving DecidableEq, Repr

/-- What `Connect` runs against: the values `socket` and `connect` return
and the contents of the uninitialised `address.sun_path`. -/
structure ConnectEnv where
  socketRet : Int
  connectRet : Int
  stack : List Char
  strerror : List Char
  deriving Repr

/-- `Connect(path)`: the outcome and the calls made.  `path` may be `NULL`
(`none`); `strncpy` then reads from address 0. -/
def Connect (env : ConnectEnv) (path : Option (List Char)) : Outcome × List Ev :=
  let sock := env.socketRet
  if sock ≠ -1 then
    match path with
    | none => (Outcome.fault 0, [Ev.socket])
    | some p =>
      let sun_path := strncpy env.stack p (sunPathSize - 1)
      if env.connectRet = -1 then
        (Outcome.returned (-1),
          [Ev.socket, Ev.connect sock (cString sun_path)] ++ LogErrno env.strerror ++ [Ev.close sock])
      else
        (Outcome.returned sock, [Ev.socket, Ev.connect sock (cString sun_path)])
  else
    (Outcome.returned sock, [Ev.socket])

/-! ## The forked child -/

/-- The code the child runs after `fork` returned 0 in it (`case 0:` in
`ReceiverMode`), given the value `dup2` returns and whether `execvp`
returns (it returns only when it failed).  The trace ends with `execvp`
when the program image was replaced, with `exit` otherwise. -/
def childPath (strerror : List Char) (receivedDescriptor slot : Int)
    (childArgv : List (List Char)) (dup2Ret : Int) (execvpReturns : Bool) : List Ev :=
  Ev.dup2 receivedDescriptor slot ::
    (if dup2Ret ≠ -1 then
      (if receivedDescriptor ≠ slot then [Ev.close receivedDescriptor] else [])
        ++ Ev.execvp childArgv.head? childArgv ::
          (if execvpReturns then
            LogErrno strerror ++ Die "Child startup failed.".toList
          else [])
    else
      LogErrno strerror ++ Die "Child startup failed.".toList)

/-! ## ReceiverMode -/

/-- `struct ModeOptions`. -/
structure ModeOptions where
  socketPath : Option (List Char)
  file : Option (List Char)
  childArgv : Option (List (List Char))
  descriptor : Int
  isPersistent : Int
  deriving DecidableEq, Repr

/-- `SignalHandler(sig)`, as a function on the flag `isRunning`: an
interrupt or terminate signal clears it; for any other signal the handler
re-raises the signal and leaves the flag alone. -/
def SignalHandler (sig : Int) (isRunning : Int) : Int :=
  if sig = SIGINT ∨ sig = SIGTERM then 0 else isRunning

/-- The signals `InitSignalHandlers` installs `SignalHandler` for. -/
inductive Signal where
  | int
  | term
  deriving DecidableEq, Repr

def Signal.number : Signal → Int
  | Signal.int => SIGINT
  | Signal.term => SIGTERM

/-- What the receiver loop runs against.  `received k` is the value the
call `ReceiveDescriptor(sock)` of iteration `k` returns, `forkFails k`
whether the `fork` of iteration `k` fails.  The two schedules say when
`SignalHandler` runs: `atBoundary k` between the end of iteration `k - 1`
(for `k = 0`: the return of `InitSignalHandlers`) and the evaluation of the
loop condition that opens iteration `k`; `inBody k` while the body of
iteration `k` runs, up to the statement `if(!options->isPersistent)`.
Since only the loop condition reads `isRunning`, the place inside the
window does not matter. -/
structure ReceiverEnv where
  sockEnv : SockEnv
  strerror : List Char
  received : Nat → Int
  forkFails : Nat → Bool
  atBoundary : Nat → Option Signal
  inBody : Nat → Option Signal

/-- The flag after the handler ran for the signal of a window, if any. -/
def flagAfter (s : Option Signal) (isRunning : Int) : Int :=
  match s with
  | none => isRunning
  | some sg => SignalHandler sg.number isRunning

/-- The record a window leaves in the trace. -/
def signalEvents (s : Option Signal) : List Ev :=
  match s with
  | none => []
  | some sg => [Ev.signal sg.number]

/-- What the receiver does with the value `ReceiveDescriptor` returned
(lines 209-234).  `fork` is seen from the receiver: it fails (`case -1`),
or it creates a child, recorded as `Ev.child`, which runs `childPath` on
the recorded values (`case 0`, in the child), while the receiver gets the
child's pid and matches no case. -/
def dispatch (options : ModeOptions) (env : ReceiverEnv) (k : Nat)
    (receivedDescriptor : Int) : List Ev :=
  if receivedDescriptor ≠ -1 then
    match options.childArgv with
    | some argv =>
      Ev.fork ::
        (if env.forkFails k then LogErrno env.strerror
         else [Ev.child receivedDescriptor options.descriptor argv])
    | none =>
      [Ev.copyStream STDOUT_FILENO receivedDescriptor 4096, Ev.close receivedDescriptor]
  else []

/-- The body of the loop up to the statement `if(!options->isPersistent)`. -/
def iteration (options : ModeOptions) (sock : Int) (env : ReceiverEnv) (k : Nat) : List Ev :=
  Ev.receive sock :: dispatch options env k (env.received k)

/-- A run of `ReceiverMode`: the value returned (`none` while the loop has
not been left when the fuel ends) and the trace so far. -/
structure Run where
  result : Option Int
  trace : List Ev
  deriving DecidableEq, Repr

/-- The loop `while(isRunning) { ... }` from the boundary that opens
iteration `k`, entered with the flag at `isRunning`; `fuel` bounds the
number of evaluations of the loop condition. -/
def receiverLoop (options : ModeOptions) (sock : Int) (env : ReceiverEnv) :
    Nat → Nat → Int → Run
  | 0, _, _ => { result := none, trace := [] }
  | fuel + 1, k, isRunning =>
    let flag := flagAfter (env.atBoundary k) isRunning
    if flag ≠ 0 then
      let flag1 := flagAfter (env.inBody k) flag
      let flag2 := if options.isPersistent = 0 then 0 else flag1
      let rest := receiverLoop options sock env fuel (k + 1) flag2
      { result := rest.result
        trace := signalEvents (env.atBoundary k) ++ Ev.test flag :: iteration options sock env k
          ++ signalEvents (env.inBody k) ++ rest.trace }
    else
      { result := some 1, trace := signalEvents (env.atBoundary k) ++ [Ev.test flag] }

/-- `ReceiverMode(options)`. -/
def ReceiverMode (options : ModeOptions) (env : ReceiverEnv) (fuel : Nat) : Run :=
  match options.socketPath with
  | none => { result := some 0, trace := [] }
  | some path =>
    let sock := (CreateSock env.sockEnv path).sock
    if sock = -1 then { result := some 0, trace := [] }
    else receiverLoop options sock env fuel 0 1

/-- The value of `isRunning` that the evaluation of the loop condition at
boundary `k + j` reads, in a persistent run that reaches boundary `k` with
the flag at `isRunning`. -/
def observedFrom (env : ReceiverEnv) : Nat → Int → Nat → Int
  | k, isRunning, 0 => flagAfter (env.atBoundary k) isRunning
  | k, isRunning, j + 1 =>
    observedFrom env (k + 1)
      (flagAfter (env.inBody k) (flagAfter (env.atBoundary k) isRunning)) j

/-- The value of `isRunning` read at boundary `n` of a persistent run. -/
def observed (env : ReceiverEnv) (n : Nat) : Int :=
  observedFrom env 0 1 n

/-- The value an evaluation of the loop condition read. -/
def testOf : Ev → Option Int
  | Ev.test v => some v
  | _ => none

/-- The values read by the evaluations of the loop condition, in order. -/
def testValues (t : List Ev) : List Int :=
  t.filterMap testOf

def isReceive : Ev → Bool
  | Ev.receive _ => true
  | _ => false

/-- Number of calls of `ReceiveDescriptor` in a trace. -/
def receiveCount (t : List Ev) : Nat :=
  t.countP isReceive

/-- Every evaluation of the loop condition that reads a set flag is
directly followed by the call `ReceiveDescriptor(sock)`, and one that
reads a cleared flag is the last event of the trace. -/
def testsAtBoundaries (sock : Int) : List Ev → Bool
  | [] => true
  | Ev.test v :: rest =>
    if v ≠ 0 then
      (match rest with
        | Ev.receive s :: _ => decide (s = sock)
        | _ => false) && testsAtBoundaries sock rest
    else decide (rest = [])
  | _ :: rest => testsAtBoundaries sock rest

def isClose (fd : Int) : Ev → Bool
  | Ev.close f => decide (f = fd)
  | _ => false

def isAnyClose : Ev → Bool
  | Ev.close _ => true
  | _ => false

def isExecvp : Ev → Bool
  | Ev.execvp _ _ => true
  | _ => false

def isFork : Ev → Bool
  | Ev.fork => true
  | _ => false

def isCopyStream : Ev → Bool
  | Ev.copyStream _ _ _ => true
  | _ => false

/-! ## Ancillary data: SendDescriptor and ReceiveDescriptor

Memory is modelled as far as these two functions touch it: the control
buffer is an object of bytes at an address, a pointer is an address (`0` is
`NULL`), and a load or store outside the object is a fault.  Layout of
`struct cmsghdr`: `size_t cmsg_len` at offset 0, `int cmsg_level` at 8,
`int cmsg_type` at 12, the data behind the header; integers are stored
little-endian. -/

def sizeofInt : Nat := 4
def sizeofSizeT : Nat := 8
/-- `sizeof(struct cmsghdr)`. -/
def sizeofCmsghdr : Nat := 16
def offsetofLevel : Nat := 8
def offsetofType : Nat := 12

def CMSG_ALIGN (len : Nat) : Nat :=
  (len + sizeofSizeT - 1) / sizeofSizeT * sizeofSizeT

def CMSG_SPACE (len : Nat) : Nat :=
  CMSG_ALIGN len + CMSG_ALIGN sizeofCmsghdr

def CMSG_LEN (len : Nat) : Nat :=
  CMSG_ALIGN sizeofCmsghdr + len

/-- The `width` low bytes of `v`, least significant first. -/
def leBytes : Nat → Nat → List Nat
  | 0, _ => []
  | width + 1, v => v % 256 :: leBytes width (v / 256)

/-- The number a list of bytes stores, least significant first. -/
def leValue : List Nat → Nat
  | [] => 0
  | b :: bs => b + 256 * leValue bs

/-- The four bytes of an `int` (two's complement). -/
def intBytes (v : Int) : List Nat :=
  leBytes sizeofInt (v % 2 ^ 32).toNat

/-- The `int` four bytes store. -/
def bytesInt (bs : List Nat) : Int :=
  if leValue bs < 2 ^ 31 then (leValue bs : Int) else (leValue bs : Int) - 2 ^ 32

/-- An object in memory: its address and its bytes. -/
structure Buffer where
  base : Nat
  bytes : List Nat
  deriving DecidableEq, Repr

/-- Store `data` at `addr`; outside the object, a fault at `addr`. -/
def Buffer.store (b : Buffer) (addr : Nat) (data : List Nat) : Except Nat Buffer :=
  if b.base ≤ addr ∧ addr + data.length ≤ b.base + b.bytes.length then
    Except.ok { b with bytes := b.bytes.take (addr - b.base) ++ data
                  ++ b.bytes.drop (addr - b.base + data.length) }
  else Except.error addr

/-- Load `n` bytes from `addr`; outside the object, a fault at `addr`. -/
def Buffer.load (b : Buffer) (addr n : Nat) : Except Nat (List Nat) :=
  if b.base ≤ addr ∧ addr + n ≤ b.base + b.bytes.length then
    Except.ok ((b.bytes.drop (addr - b.base)).take n)
  else Except.error addr

/-- The fields of `struct msghdr` the code sets: the contents of the one
body buffer, the address and the length of the control buffer. -/
structure Msghdr where
  msg_iov : List Nat
  msg_control : Nat
  msg_controllen : Nat
  deriving DecidableEq, Repr

/-- `CMSG_FIRSTHDR(mhdr)`: the control buffer when it can hold a header,
`NULL` otherwise. -/
def CMSG_FIRSTHDR (mhdr : Msghdr) : Nat :=
  if sizeofCmsghdr ≤ mhdr.msg_controllen then mhdr.msg_control else 0

/-- `CMSG_DATA(cmsg)`: the address behind the header. -/
def CMSG_DATA (cmsg : Nat) : Nat :=
  cmsg + sizeofCmsghdr

/-- A datagram as `sendmsg` takes it and `recvmsg` delivers it: the body
and the control bytes. -/
structure Message where
  body : List Nat
  control : List Nat
  deriving DecidableEq, Repr

/-- A run of `SendDescriptor`: how it ended, the message handed to
`sendmsg`, the calls made. -/
structure SendRun where
  outcome : Outcome
  message : Option Message
  trace : List Ev
  deriving Repr

/-- `SendDescriptor(sock, descriptor)`, with the control buffer at `base`;
`sendmsg` is the value the call returns for the message. -/
def SendDescriptor (base : Nat) (strerror : List Char) (sendmsg : Message → Int)
    (sock descriptor : Int) : SendRun :=
  let controlMessageBuffer : Buffer :=
    { base := base, bytes := List.replicate (CMSG_SPACE sizeofInt) 0 }
  let messageHeader : Msghdr :=
    { msg_iov := [0], msg_control := base, msg_controllen := CMSG_SPACE sizeofInt }
  let controlMessage := CMSG_FIRSTHDR messageHeader
  match (do
      let b ← controlMessageBuffer.store (controlMessage + offsetofLevel) (intBytes SOL_SOCKET)
      let b ← b.store (controlMessage + offsetofType) (intBytes SCM_RIGHTS)
      let b ← b.store controlMessage (leBytes sizeofSizeT (CMSG_LEN sizeofInt))
      b.store (CMSG_DATA controlMessage) (intBytes descriptor)) with
  | Except.error addr => { outcome := Outcome.fault addr, message := none, trace := [] }
  | Except.ok b =>
    let message : Message :=
      { body := messageHeader.msg_iov, control := b.bytes.take messageHeader.msg_controllen }
    if sendmsg message < 0 then
      { outcome := Outcome.returned (-1), message := some message,
        trace := Ev.sendmsg sock descriptor :: LogErrno strerror }
    else
      { outcome := Outcome.returned 0, message := some message,
        trace := [Ev.sendmsg sock descriptor] }

/-- A run of `ReceiveDescriptor`. -/
structure ReceiveRun where
  outcome : Outcome
  trace : List Ev
  deriving Repr

/-- `ReceiveDescriptor(sock)`, with the control buffer at `base` and
`stack` the bytes it holds before the call (it is not initialised).
`delivered` is what `recvmsg` does: `none` when it fails, otherwise the
message; its control bytes are stored at the start of the control buffer,
as far as they fit, and `msg_controllen` becomes their number. -/
def ReceiveDescriptor (base : Nat) (stack : Nat → Nat) (strerror : List Char)
    (delivered : Option Message) (sock : Int) : ReceiveRun :=
  match delivered with
  | none => { outcome := Outcome.returned (-1), trace := Ev.recvmsg sock :: LogErrno strerror }
  | some m =>
    let controlMessagesBuffer : Buffer :=
      { base := base
        bytes := (List.range (CMSG_SPACE sizeofInt)).map
          (fun i => (m.control.get? i).getD (stack i)) }
    let messageHeader : Msghdr :=
      { msg_iov := m.body.take sizeofInt, msg_control := base,
        msg_controllen := min m.control.length (CMSG_SPACE sizeofInt) }
    let controlMessage := CMSG_FIRSTHDR messageHeader
    let controlMessageData := CMSG_DATA controlMessage
    if controlMessageData ≠ 0 then
      match controlMessagesBuffer.load controlMessageData sizeofInt with
      | Except.ok bs => { outcome := Outcome.returned (bytesInt bs), trace := [Ev.recvmsg sock] }
      | Except.error addr => { outcome := Outcome.fault addr, trace := [Ev.recvmsg sock] }
    else
      { outcome := Outcome.returned (-1), trace := [Ev.recvmsg sock] }

/-! ### The channel between a sender and a receiver -/

/-- One ancillary entry of a control buffer. -/
structure Cmsg where
  cmsg_len : Nat
  cmsg_level : Int
  cmsg_type : Int
  data : List Nat
  deriving DecidableEq, Repr

/-- The ancillary entries of a control buffer from offset `off` on, read
header by header: an entry counts when its header and the `cmsg_len` bytes
it announces lie inside the buffer, and the next header starts
`CMSG_ALIGN(cmsg_len)` bytes further. -/
def ancillaryFrom (control : List Nat) : Nat → Nat → List Cmsg
  | 0, _ => []
  | fuel + 1, off =>
    if off + sizeofCmsghdr ≤ control.length then
      let len := leValue ((control.drop off).take sizeofSizeT)
      if sizeofCmsghdr ≤ len ∧ off + len ≤ control.length then
        { cmsg_len := len
          cmsg_level := bytesInt ((control.drop (off + offsetofLevel)).take sizeofInt)
          cmsg_type := bytesInt ((control.drop (off + offsetofType)).take sizeofInt)
          data := (control.drop (off + sizeofCmsghdr)).take (len - sizeofCmsghdr) }
          :: ancillaryFrom control fuel (off + CMSG_ALIGN len)
      else []
    else []

/-- All ancillary entries of a control buffer. -/
def ancillary (control : List Nat) : List Cmsg :=
  ancillaryFrom control control.length 0

/-- An open file or socket, as the kernel identifies it. -/
abbrev Resource := Nat

/-- The descriptor table of a process: entry `fd` is the resource that
descriptor `fd` refers to, if it is open. -/
abbrev FdTable := List (Option Resource)

/-- The resource a descriptor refers to. -/
def resourceOf (t : FdTable) (fd : Int) : Option Resource :=
  if 0 ≤ fd then (t.get? fd.toNat).join else none

/-- The lowest descriptor that is not open. -/
def lowestFree : FdTable → Nat
  | [] => 0
  | none :: _ => 0
  | some _ :: t => lowestFree t + 1

/-- The table with descriptor `fd` referring to `r`. -/
def installAt : FdTable → Nat → Resource → FdTable
  | [], _, r => [some r]
  | _ :: t, 0, r => some r :: t
  | e :: t, fd + 1, r => e :: installAt t fd r

/-- The channel of the transfer-fidelity property: a datagram is delivered
unchanged, except that the kernel, for a message whose ancillary data is
one `SCM_RIGHTS` entry carrying one descriptor that is open in the sender,
opens the lowest free descriptor of the receiver on the same resource and
puts its number in the payload.  A message without ancillary data is
delivered with an empty control part.  Anything else is refused. -/
def deliver (sender receiver : FdTable) (m : Message) : Option (Message × FdTable) :=
  match ancillary m.control with
  | [] => some ({ m with control := [] }, receiver)
  | [c] =>
    if c.cmsg_level = SOL_SOCKET ∧ c.cmsg_type = SCM_RIGHTS ∧ c.data.length = sizeofInt then
      match resourceOf sender (bytesInt c.data) with
      | some r =>
        some ({ m with control := m.control.take sizeofCmsghdr
                  ++ intBytes (lowestFree receiver)
                  ++ m.control.drop (sizeofCmsghdr + sizeofInt) },
              installAt receiver (lowestFree receiver) r)
      | none => none
    else none
  | _ => none

/-- What `sendmsg` returns on that channel: the number of body bytes sent,
or -1. -/
def channelSendmsg (sender receiver : FdTable) (m : Message) : Int :=
  match deliver sender receiver m with
  | some _ => m.body.length
  | none => -1

/-- The control bytes `SendDescriptor` builds for `descriptor`: the header
(`cmsg_len`, `cmsg_level`, `cmsg_type`), the descriptor, and the padding up
to `CMSG_SPACE(sizeof(int))`. -/
def controlImage (descriptor : Int) : List Nat :=
  leBytes sizeofSizeT (CMSG_LEN sizeofInt) ++ intBytes SOL_SOCKET ++ intBytes SCM_RIGHTS
    ++ intBytes descriptor ++ List.replicate (CMSG_SPACE sizeofInt - CMSG_LEN sizeofInt) 0

/-! ## SenderMode -/

/-- What `SenderMode` runs against. -/
structure SenderEnv where
  openRet : Int
  connectEnv : ConnectEnv
  base : Nat
  sendmsg : Message → Int
  strerror : List Char

/-- A run of `SenderMode`. -/
structure SenderRun where
  outcome : Outcome
  trace : List Ev
  deriving Repr

/-- Lines 256-266 of `SenderMode`: connect and send `descriptor`. -/
def SenderMode.transfer (options : ModeOptions) (env : SenderEnv) (descriptor : Int) :
    SenderRun :=
  match Connect env.connectEnv options.socketPath with
  | (Outcome.fault addr, t) => { outcome := Outcome.fault addr, trace := t }
  | (Outcome.returned sock, t) =>
    if sock = -1 then { outcome := Outcome.returned 0, trace := t }
    else
      let sent := SendDescriptor env.base env.strerror env.sendmsg sock descriptor
      match sent.outcome with
      | Outcome.fault addr => { outcome := Outcome.fault addr, trace := t ++ sent.trace }
      | Outcome.returned r =>
        if r = -1 then { outcome := Outcome.returned 0, trace := t ++ sent.trace }
        else { outcome := Outcome.returned 1, trace := t ++ sent.trace }

/-- `SenderMode(options)`. -/
def SenderMode (options : ModeOptions) (env : SenderEnv) : SenderRun :=
  match options.file with
  | some file =>
    let descriptor := env.openRet
    if descriptor = -1 then
      { outcome := Outcome.returned 0, trace := Ev.openRdonly file :: LogErrno env.strerror }
    else
      let run := SenderMode.transfer options env descriptor
      { run with trace := Ev.openRdonly file :: run.trace }
  | none => SenderMode.transfer options env options.descriptor

/-- The descriptor `SenderMode` sends: the result of `open` when a file is
configured, `options->descriptor` otherwise. -/
def sourceDescriptor (options : ModeOptions) (env : SenderEnv) : Int :=
  match options.file with
  | some _ => env.openRet
  | none => options.descriptor

def isSocket : Ev → Bool
  | Ev.socket => true
  | _ => false

def isConnect : Ev → Bool
  | Ev.connect _ _ => true
  | _ => false

def isSendmsg : Ev → Bool
  | Ev.sendmsg _ _ => true
  | _ => false

def isExit : Ev → Bool
  | Ev.exit _ => true
  | _ => false

/-! ## main

`getopt` and `sscanf` belong to the C library.  Their results are inputs:
`parsed` is the sequence of option characters the successive calls
`getopt(argc, argv, "d:es:f:pwr")` return before the final -1, each with
its `optarg`, `operands` is `argv[optind .. argc - 1]` after the last call,
and `sscanf optarg` is the `int` that `sscanf(optarg, "%d", ...)` stores
when it returns 1, `none` when it returns anything else. -/

/-- The part of `path` after its last `/`, the whole of `path` when it has
none. -/
def basePart (path : List Char) : List Char :=
  (path.reverse.takeWhile (fun c => decide (c ≠ '/'))).reverse

/-- `MatchBaseName(path, name)`. -/
def MatchBaseName (path name : List Char) : Bool :=
  decide (basePart path = name)

/-- The two values the function pointer `mode` takes besides `NULL`. -/
inductive Mode where
  | SenderMode
  | ReceiverMode
  deriving DecidableEq, Repr

/-- The local variables of `main`. -/
structure MainState where
  mode : Option Mode
  options : ModeOptions
  isExecPresent : Int
  deriving DecidableEq, Repr

/-- The state before the first `getopt`: `mode = NULL`, `options` zeroed. -/
def initialState : MainState :=
  { mode := none
    options := { socketPath := none, file := none, childArgv := none, descriptor := 0,
                 isPersistent := 0 }
    isExecPresent := 0 }

/-- The body of the `getopt` loop (the `switch`): the new state, or the
message `Die` is called with. -/
def optionStep (sscanf : List Char → Option Int) (st : MainState) (opt : Char)
    (optarg : List Char) : Except (List Char) MainState :=
  if opt = 'w' then Except.ok { st with mode := some Mode.SenderMode }
  else if opt = 'r' then Except.ok { st with mode := some Mode.ReceiverMode }
  else if opt = 'f' then
    Except.ok { st with options := { st.options with file := some optarg } }
  else if opt = 's' then
    Except.ok { st with options := { st.options with socketPath := some optarg } }
  else if opt = 'e' then Except.ok { st with isExecPresent := 1 }
  else if opt = 'p' then
    Except.ok { st with options := { st.options with isPersistent := 1 } }
  else if opt = 'd' then
    match sscanf optarg with
    | some v => Except.ok { st with options := { st.options with descriptor := v } }
    | none => Except.error "Can't scan descriptor.".toList
  else Except.error "Unknown option.".toList

/-- The `getopt` loop (lines 277-305). -/
def getoptLoop (sscanf : List Char → Option Int) :
    MainState → List (Char × List Char) → Except (List Char) MainState
  | st, [] => Except.ok st
  | st, (opt, optarg) :: rest =>
    match optionStep sscanf st opt optarg with
    | Except.error msg => Except.error msg
    | Except.ok st1 => getoptLoop sscanf st1 rest

/-- Lines 277-315 of `main`: the `getopt` loop, then the command or the
socket path taken from the operands (`argv[optind]` is `NULL` when there is
no operand). -/
def processOptions (sscanf : List Char → Option Int) (parsed : List (Char × List Char))
    (operands : List (List Char)) : Except (List Char) MainState :=
  match getoptLoop sscanf initialState parsed with
  | Except.error msg => Except.error msg
  | Except.ok st =>
    if st.isExecPresent ≠ 0 then
      if operands = [] then Except.error "Missing command.".toList
      else Except.ok { st with options := { st.options with childArgv := some operands } }
    else if st.options.socketPath = none then
      Except.ok { st with options := { st.options with socketPath := operands.head? } }
    else Except.ok st

/-- How `main` ends: in `Die(msg)`, or in the call `mode(&options)`, whose
result decides the exit status. -/
inductive MainOutcome where
  | died (msg : List Char)
  | ran (mode : Mode) (options : ModeOptions)
  deriving DecidableEq, Repr

/-- `main(argc, argv)` up to the call of the mode; `argv0` is `argv[0]`. -/
def main (sscanf : List Char → Option Int) (argv0 : List Char)
    (parsed : List (Char × List Char)) (operands : List (List Char)) : MainOutcome :=
  match processOptions sscanf parsed operands with
  | Except.error msg => MainOutcome.died msg
  | Except.ok st =>
    let mode :=
      if MatchBaseName argv0 "sendfd".toList then some Mode.SenderMode
      else if MatchBaseName argv0 "recvfd".toList then some Mode.ReceiverMode
      else st.mode
    match mode with
    | none => MainOutcome.died "Unknown mode.".toList
    | some m => MainOutcome.ran m st.options

/-- The exit status `main` returns for the value the mode returned. -/
def exitStatus (modeResult : Int) : Int :=
  if modeResult ≠ 0 then EXIT_SUCCESS else EXIT_FAILURE

/-- The mode an explicit mode flag stands for: `-w` sender, `-r` receiver. -/
def modeOfFlag (opt : Char) : Option Mode :=
  if opt = 'w' then some Mode.SenderMode
  else if opt = 'r' then some Mode.ReceiverMode
  else none

/-- The mode of the last explicit mode flag among the options parsed. -/
def lastModeFlag (parsed : List (Char × List Char)) : Option Mode :=
  (parsed.filterMap (fun p => modeOfFlag p.1)).getLast?

/-! ## Concrete inputs -/

/-- An empty filesystem, a `socket` call that returns descriptor 3, no
failure of `bind` besides an occupied address, a zeroed stack. -/
def quietSockEnv : SockEnv :=
  { fs := [], socketRet := 3, socketErrno := 0, bindFailure := none,
    stack := List.replicate sunPathSize NUL }

/-- A receiver without child command, not persistent, on `/tmp/s`. -/
def relayOptions : ModeOptions :=
  { socketPath := some "/tmp/s".toList, file := none, childArgv := none,
    descriptor := 0, isPersistent := 0 }

/-- A terminate signal is handled right after `InitSignalHandlers`
returned, before the loop condition is evaluated for the first time; every
`ReceiveDescriptor` would return descriptor 5. -/
def signalledEnv : ReceiverEnv :=
  { sockEnv := quietSockEnv, strerror := [], received := fun _ => 5,
    forkFails := fun _ => false,
    atBoundary := fun k => if k = 0 then some Signal.term else none,
    inBody := fun _ => none }

/-- No signal at all; every `ReceiveDescriptor` returns descriptor 5. -/
def quietEnv : ReceiverEnv :=
  { sockEnv := quietSockEnv, strerror := [], received := fun _ => 5,
    forkFails := fun _ => false, atBoundary := fun _ => none, inBody := fun _ => none }

/-- A persistent receiver without child command on `/tmp/s`. -/
def persistentOptions : ModeOptions :=
  { socketPath := some "/tmp/s".toList, file := none, childArgv := none,
    descriptor := 0, isPersistent := 1 }

/-- Every `ReceiveDescriptor` fails; a terminate signal is handled while
the body of iteration 2 runs. -/
def failingEnv : ReceiverEnv :=
  { sockEnv := quietSockEnv, strerror := [], received := fun _ => -1,
    forkFails := fun _ => true, atBoundary := fun _ => none,
    inBody := fun k => if k = 2 then some Signal.term else none }

/-- A sender whose descriptor 3 is open on resource 42, and a receiver with
descriptors 0, 1, 2 open. -/
def senderTable : FdTable := [some 10, some 11, some 12, some 42]

def receiverTable : FdTable := [some 20, some 21, some 22]

/-- A datagram of one byte without ancillary data, as a plain `send` on the
socket produces it. -/
def plainDatagram : Message := { body := [0], control := [] }

/-- A path of 108 characters, one more than `sun_path` is given. -/
def longPath : List Char := List.replicate 108 'a'

/-! ## Theorems -/

/-! ### The stream relay -/

/-- C9 (stream relay).  When the successive reads return the non-empty
chunks `c1 .. cn` and then a result `final ≤ 0`, `CopyStream` returns after
exactly `n + 1` reads (whatever further reads would have returned), its
write calls are exactly `write(outputStream, ci)` for `i = 1 .. n` in order,
followed by the two writes of `LogErrno` on standard error exactly when
`final < 0`, and nothing else is written. -/
theorem CopyStream_relays (strerror : List Char) (outputStream inputStream : Int)
    (bufferSize : Nat) (chunks : List (List Char)) (final : Int) (junk : List Char)
    (later : List ReadResult)
    (hpos : ∀ c ∈ chunks, c ≠ []) (hfinal : final ≤ 0) :
    ∃ t, CopyStream strerror outputStream inputStream bufferSize
            (chunks.map readChunk ++ { bytesReceived := final, buffer := junk } :: later) = some t
      ∧ readCount t = chunks.length + 1
      ∧ writes t = chunks.map (fun c => (outputStream, c))
          ++ (if final < 0 then writes (LogErrno strerror) else []) := by
  induction chunks with
  | nil =>
    have hnot : ¬ final > 0 := not_lt.mpr hfinal
    by_cases hneg : final < 0
    · simp [CopyStream, hnot, hneg, LogErrno, LogError, readCount, writes, isRead, writeOf]
    · simp [CopyStream, hnot, hneg, readCount, writes, isRead, writeOf]
  | cons c cs ih =>
    have hc : c ≠ [] := hpos c (List.mem_cons_self _ _)
    have hlen : (0 : Int) < (c.length : Int) := by
      have : 0 < c.length := List.length_pos.mpr hc
      exact_mod_cast this
    obtain ⟨t, ht, hr, hw⟩ := ih (fun x hx => hpos x (List.mem_cons_of_mem _ hx))
    refine ⟨Ev.read inputStream bufferSize :: Ev.write outputStream c :: t, ?_, ?_, ?_⟩
    · rw [List.map_cons, List.cons_append, CopyStream]
      simp [readChunk, hlen, ht]
    · simp only [readCount] at hr
      simp [readCount, isRead, hr]
    · simp only [writes] at hw
      simp [writes, writeOf, hw]

/-- C9 at the relay scenario: a file holding "abc" is read as one chunk and
then end of input, and standard output receives exactly "abc". -/
theorem CopyStream_relays_witness :
    (∀ c ∈ ["abc".toList], c ≠ []) ∧ (0 : Int) ≤ 0 ∧
    ∃ t, CopyStream [] STDOUT_FILENO 5 4096
            (["abc".toList].map readChunk ++ { bytesReceived := 0, buffer := [] } :: []) = some t
      ∧ readCount t = ["abc".toList].length + 1
      ∧ writes t = ["abc".toList].map (fun c => (STDOUT_FILENO, c))
          ++ (if (0 : Int) < 0 then writes (LogErrno []) else []) :=
  ⟨by decide, le_refl 0,
   CopyStream_relays [] STDOUT_FILENO 5 4096 ["abc".toList] 0 [] [] (by decide) (le_refl 0)⟩

/-! ### Channel endpoints -/

theorem cString_append_nul (p rest : List Char) (hnul : ∀ c ∈ p, c ≠ NUL) :
    cString (p ++ NUL :: rest) = p := by
  induction p with
  | nil => simp [cString]
  | cons c cs ih =>
    have hc : c ≠ NUL := hnul c (List.mem_cons_self _ _)
    have ih1 := ih (fun x hx => hnul x (List.mem_cons_of_mem _ hx))
    unfold cString at ih1 ⊢
    rw [List.cons_append, List.takeWhile_cons_of_pos (by simpa using hc), ih1]

/-- A path shorter than the copy length is copied whole and terminated:
the buffer holds the path itself. -/
theorem cString_strncpy (stack path : List Char) (n : Nat)
    (hnul : ∀ c ∈ path, c ≠ NUL) (hlen : path.length < n) :
    cString (strncpy stack path n) = path := by
  unfold strncpy
  obtain ⟨m, hm⟩ : ∃ m, n - path.length = m + 1 := ⟨n - path.length - 1, by omega⟩
  rw [List.take_of_length_le (by omega), hm, List.replicate_succ, List.append_assoc,
    List.cons_append]
  exact cString_append_nul _ _ hnul

theorem not_mem_unlink (fs : FS) (path : List Char) : path ∉ unlink fs path := by
  simp [unlink]

/-! ### Ancillary data -/

theorem leBytes_length (w v : Nat) : (leBytes w v).length = w := by
  induction w generalizing v with
  | zero => rfl
  | succ n ih => simp [leBytes, ih]

theorem intBytes_length (v : Int) : (intBytes v).length = 4 := by
  simp [intBytes, leBytes_length, sizeofInt]

theorem intBytes_eq (v : Int) : ∃ a b c d, intBytes v = [a, b, c, d] := by
  simp only [intBytes, sizeofInt, leBytes]
  exact ⟨_, _, _, _, rfl⟩

/-- The message `SendDescriptor` hands to `sendmsg`, and what it returns:
the one-byte body, the control bytes `controlImage descriptor`; 0 when
`sendmsg` does not fail, -1 when it does; it never faults. -/
theorem SendDescriptor_eq (base : Nat) (strerror : List Char) (sendmsg : Message → Int)
    (sock descriptor : Int) :
    (SendDescriptor base strerror sendmsg sock descriptor).message
        = some { body := [0], control := controlImage descriptor }
      ∧ (SendDescriptor base strerror sendmsg sock descriptor).outcome
        = (if sendmsg { body := [0], control := controlImage descriptor } < 0
            then Outcome.returned (-1) else Outcome.returned 0)
      ∧ (SendDescriptor base strerror sendmsg sock descriptor).trace
        = Ev.sendmsg sock descriptor ::
          (if sendmsg { body := [0], control := controlImage descriptor } < 0
            then LogErrno strerror else []) := by
  obtain ⟨a, b, c, d, hd⟩ := intBytes_eq descriptor
  have himg : controlImage descriptor
      = [20, 0, 0, 0, 0, 0, 0, 0, 1, 0, 0, 0, 1, 0, 0, 0, a, b, c, d, 0, 0, 0, 0] := by
    have h1 : leBytes sizeofSizeT (CMSG_LEN sizeofInt) = [20, 0, 0, 0, 0, 0, 0, 0] := by decide
    have h2 : intBytes SOL_SOCKET = [1, 0, 0, 0] := by decide
    have h3 : intBytes SCM_RIGHTS = [1, 0, 0, 0] := by decide
    have h4 : List.replicate (CMSG_SPACE sizeofInt - CMSG_LEN sizeofInt) 0 = [0, 0, 0, 0] := by
      decide
    rw [controlImage, hd, h1, h2, h3, h4]
    rfl
  rw [himg]
  have h2 : intBytes SOL_SOCKET = [1, 0, 0, 0] := by decide
  have h3 : intBytes SCM_RIGHTS = [1, 0, 0, 0] := by decide
  have h1 : leBytes sizeofSizeT (CMSG_LEN sizeofInt) = [20, 0, 0, 0, 0, 0, 0, 0] := by decide
  have hs : CMSG_SPACE sizeofInt = 24 := by decide
  simp only [SendDescriptor, hd, h1, h2, h3, hs, CMSG_FIRSTHDR, CMSG_DATA, sizeofCmsghdr,
    offsetofLevel, offsetofType, Buffer.store]
  simp [Bind.bind, Except.bind]
  split <;> simp

theorem leValue_leBytes_int (n : Nat) (h : n < 2 ^ 32) : leValue (leBytes sizeofInt n) = n := by
  simp only [sizeofInt, leBytes, leValue]
  norm_num at h
  omega

/-- An `int` survives being stored in four bytes and loaded again. -/
theorem bytesInt_intBytes (v : Int) (h1 : -2 ^ 31 ≤ v) (h2 : v < 2 ^ 31) :
    bytesInt (intBytes v) = v := by
  have hm : ((v % 2 ^ 32).toNat : Int) = v % 2 ^ 32 :=
    Int.toNat_of_nonneg (Int.emod_nonneg _ (by norm_num))
  have hlt : (v % 2 ^ 32).toNat < 2 ^ 32 := by
    have : v % 2 ^ 32 < 2 ^ 32 := Int.emod_lt_of_pos _ (by norm_num)
    omega
  unfold bytesInt intBytes
  rw [leValue_leBytes_int _ hlt]
  norm_num at h1 h2 hm hlt ⊢
  split <;> omega

theorem controlImage_eq (v : Int) :
    ∃ a b c d, intBytes v = [a, b, c, d]
      ∧ controlImage v
        = [20, 0, 0, 0, 0, 0, 0, 0, 1, 0, 0, 0, 1, 0, 0, 0, a, b, c, d, 0, 0, 0, 0] := by
  obtain ⟨a, b, c, d, hd⟩ := intBytes_eq v
  refine ⟨a, b, c, d, hd, ?_⟩
  have h1 : leBytes sizeofSizeT (CMSG_LEN sizeofInt) = [20, 0, 0, 0, 0, 0, 0, 0] := by decide
  have h2 : intBytes SOL_SOCKET = [1, 0, 0, 0] := by decide
  have h3 : intBytes SCM_RIGHTS = [1, 0, 0, 0] := by decide
  have h4 : List.replicate (CMSG_SPACE sizeofInt - CMSG_LEN sizeofInt) 0 = [0, 0, 0, 0] := by
    decide
  rw [controlImage, hd, h1, h2, h3, h4]
  rfl

/-- The control bytes `SendDescriptor` builds hold exactly one ancillary
entry: length `CMSG_LEN(sizeof(int))`, level `SOL_SOCKET`, type
`SCM_RIGHTS`, payload the descriptor. -/
theorem ancillary_controlImage (v : Int) :
    ancillary (controlImage v)
      = [{ cmsg_len := CMSG_LEN sizeofInt, cmsg_level := SOL_SOCKET, cmsg_type := SCM_RIGHTS,
           data := intBytes v }] := by
  obtain ⟨a, b, c, d, hd, himg⟩ := controlImage_eq v
  have hl : CMSG_LEN sizeofInt = 20 := by decide
  have ha : CMSG_ALIGN 20 = 24 := by decide
  have hb : bytesInt [1, 0, 0, 0] = 1 := by decide
  rw [himg, hd, hl]
  simp [ancillary, ancillaryFrom, sizeofCmsghdr, sizeofSizeT, sizeofInt, offsetofLevel,
    offsetofType, leValue, ha, hb, SOL_SOCKET, SCM_RIGHTS]

theorem lowestFree_le_length (t : FdTable) : lowestFree t ≤ t.length := by
  induction t with
  | nil => simp [lowestFree]
  | cons e t ih =>
    cases e with
    | none => simp [lowestFree]
    | some r => simpa [lowestFree] using ih

theorem get?_installAt_lowestFree (t : FdTable) (r : Resource) :
    (installAt t (lowestFree t) r)[lowestFree t]? = some (some r) := by
  induction t with
  | nil => simp [installAt, lowestFree]
  | cons e t ih =>
    cases e with
    | none => simp [installAt, lowestFree]
    | some x => simpa [installAt, lowestFree] using ih

/-- The descriptor the kernel opens in the receiver refers to the resource
it was opened on. -/
theorem resourceOf_installAt (t : FdTable) (r : Resource) :
    resourceOf (installAt t (lowestFree t) r) (lowestFree t : Int) = some r := by
  simp [resourceOf, get?_installAt_lowestFree]

/-- What the channel does with the message `SendDescriptor` builds for a
descriptor that is open in the sender. -/
theorem deliver_controlImage (sender receiver : FdTable) (body : List Nat) (v : Int)
    (F : Resource) (h1 : -2 ^ 31 ≤ v) (h2 : v < 2 ^ 31) (hopen : resourceOf sender v = some F) :
    deliver sender receiver { body := body, control := controlImage v }
      = some ({ body := body, control := controlImage (lowestFree receiver : Int) },
              installAt receiver (lowestFree receiver) F) := by
  obtain ⟨a, b, c, d, hd, himg⟩ := controlImage_eq v
  obtain ⟨a1, b1, c1, d1, hd1, himg1⟩ := controlImage_eq (lowestFree receiver : Int)
  have hr := bytesInt_intBytes v h1 h2
  simp only [deliver, ancillary_controlImage, intBytes_length, hr, hopen, sizeofInt]
  rw [himg, himg1, hd1]
  simp [SOL_SOCKET, SCM_RIGHTS, sizeofCmsghdr]

/-- What `ReceiveDescriptor` returns for a delivered message whose control
bytes are those built for descriptor `v`: the `int` in the payload. -/
theorem ReceiveDescriptor_controlImage (base : Nat) (stack : Nat → Nat) (strerror : List Char)
    (body : List Nat) (v sock : Int) :
    (ReceiveDescriptor base stack strerror
        (some { body := body, control := controlImage v }) sock).outcome
      = Outcome.returned (bytesInt (intBytes v)) := by
  obtain ⟨a, b, c, d, hd, himg⟩ := controlImage_eq v
  have hs : CMSG_SPACE 4 = 24 := by decide
  rw [himg, hd]
  simp [ReceiveDescriptor, hs, CMSG_FIRSTHDR, CMSG_DATA, sizeofCmsghdr, sizeofInt, Buffer.load,
    List.range_succ]

/-! ### The sender -/

theorem countP_LogErrno (p : Ev → Bool) (strerror : List Char)
    (hp : ∀ fd data, p (Ev.write fd data) = false) : (LogErrno strerror).countP p = 0 := by
  simp [LogErrno, LogError, hp]

/-- Lines 256-266 of `SenderMode`. -/
theorem transfer_spec (options : ModeOptions) (env : SenderEnv) (d : Int) :
    ((SenderMode.transfer options env d).outcome = Outcome.returned 1 ↔
        ∃ sock, (Connect env.connectEnv options.socketPath).1 = Outcome.returned sock
          ∧ sock ≠ -1
          ∧ (SendDescriptor env.base env.strerror env.sendmsg sock d).outcome
              = Outcome.returned 0)
      ∧ ((Connect env.connectEnv options.socketPath).1 = Outcome.returned (-1) →
          (SenderMode.transfer options env d).outcome = Outcome.returned 0
            ∧ (SenderMode.transfer options env d).trace.countP isSendmsg = 0
            ∧ (SenderMode.transfer options env d).trace.countP isExit = 0)
      ∧ (SenderMode.transfer options env d).trace.countP isSendmsg ≤ 1
      ∧ (SenderMode.transfer options env d).trace.countP isExit = 0 := by
  have hsend := fun sock => SendDescriptor_eq env.base env.strerror env.sendmsg sock d
  by_cases hs : env.connectEnv.socketRet = -1
  · simp [SenderMode.transfer, Connect, hs, isSendmsg, isExit]
  · cases hp : options.socketPath with
    | none => simp [SenderMode.transfer, Connect, hs, hp, isSendmsg, isExit]
    | some path =>
      by_cases hc : env.connectEnv.connectRet = -1
      · simp [SenderMode.transfer, Connect, hs, hp, hc, isSendmsg, isExit, LogErrno, LogError]
      · by_cases hm : env.sendmsg { body := [0], control := controlImage d } < 0
        · simp [SenderMode.transfer, Connect, hs, hp, hc, hsend, hm, isSendmsg, isExit,
            LogErrno, LogError]
        · simp [SenderMode.transfer, Connect, hs, hp, hc, hsend, hm, isSendmsg, isExit]

/-! ### main -/

theorem optionStep_mode (sscanf : List Char → Option Int) (st st1 : MainState) (opt : Char)
    (optarg : List Char) (h : optionStep sscanf st opt optarg = Except.ok st1) :
    st1.mode = (modeOfFlag opt).or st.mode := by
  unfold optionStep at h
  unfold modeOfFlag
  split_ifs at h ⊢ <;> first
    | (cases h; rfl)
    | (split at h <;> first | (cases h; rfl) | cases h)

/-- After the `getopt` loop, `mode` is the mode of the last explicit mode
flag, or what it was before when there is no such flag. -/
theorem getoptLoop_mode (sscanf : List Char → Option Int) (parsed : List (Char × List Char)) :
    ∀ st st1, getoptLoop sscanf st parsed = Except.ok st1 →
      st1.mode = (lastModeFlag parsed).or st.mode := by
  induction parsed with
  | nil =>
    intro st st1 h
    simp only [getoptLoop] at h
    cases h
    simp [lastModeFlag]
  | cons p rest ih =>
    intro st st1 h
    obtain ⟨opt, optarg⟩ := p
    simp only [getoptLoop] at h
    cases hstep : optionStep sscanf st opt optarg with
    | error msg => rw [hstep] at h; cases h
    | ok st2 =>
      rw [hstep] at h
      have h2 := ih st2 st1 h
      have h1 := optionStep_mode sscanf st st2 opt optarg hstep
      rw [h2, h1]
      simp only [lastModeFlag] at *
      cases hm : modeOfFlag opt with
      | none => simp [List.filterMap_cons, hm]
      | some m =>
        simp only [List.filterMap_cons, hm, List.getLast?_cons]
        cases (List.filterMap (fun p => modeOfFlag p.1) rest).getLast? <;> simp

theorem processOptions_mode (sscanf : List Char → Option Int)
    (parsed : List (Char × List Char)) (operands : List (List Char)) (st : MainState)
    (h : processOptions sscanf parsed operands = Except.ok st) :
    st.mode = lastModeFlag parsed := by
  unfold processOptions at h
  cases hl : getoptLoop sscanf initialState parsed with
  | error msg => rw [hl] at h; cases h
  | ok st0 =>
    rw [hl] at h
    have h0 := getoptLoop_mode sscanf parsed initialState st0 hl
    have hmode : st.mode = st0.mode := by
      simp only at h
      split_ifs at h <;> (cases h; rfl)
    rw [hmode, h0]
    simp [initialState]

/-! ### The receiver loop -/

theorem receiveCount_append (a b : List Ev) :
    receiveCount (a ++ b) = receiveCount a + receiveCount b := by
  simp [receiveCount]

theorem receiveCount_signalEvents (s : Option Signal) : receiveCount (signalEvents s) = 0 := by
  cases s <;> simp [signalEvents, receiveCount, isReceive]

theorem receiveCount_dispatch (options : ModeOptions) (env : ReceiverEnv) (k : Nat) (d : Int) :
    receiveCount (dispatch options env k d) = 0 := by
  unfold dispatch
  split
  · split
    · split <;> simp [receiveCount, LogErrno, LogError, isReceive]
    · simp [receiveCount, isReceive]
  · simp [receiveCount]

theorem receiveCount_iteration (options : ModeOptions) (sock : Int) (env : ReceiverEnv)
    (k : Nat) : receiveCount (iteration options sock env k) = 1 := by
  have h := receiveCount_dispatch options env k (env.received k)
  simp only [receiveCount] at h
  simp [iteration, receiveCount, isReceive, h]

theorem receiveCount_cons_test (v : Int) (t : List Ev) :
    receiveCount (Ev.test v :: t) = receiveCount t := by
  simp [receiveCount, isReceive]

theorem flagAfter_zero (s : Option Signal) : flagAfter s 0 = 0 := by
  cases s <;> simp [flagAfter, SignalHandler]

theorem flagAfter_some (sg : Signal) (v : Int) : flagAfter (some sg) v = 0 := by
  cases sg <;> simp [flagAfter, SignalHandler, Signal.number]

theorem flagAfter_none (v : Int) : flagAfter none v = v := rfl

theorem receiveCount_nil : receiveCount [] = 0 := rfl

theorem testOf_signalEvents (s : Option Signal) : ∀ e ∈ signalEvents s, testOf e = none := by
  cases s <;> simp [signalEvents, testOf]

theorem testOf_dispatch (options : ModeOptions) (env : ReceiverEnv) (k : Nat) (d : Int) :
    ∀ e ∈ dispatch options env k d, testOf e = none := by
  unfold dispatch
  split
  · split
    · split <;> simp [LogErrno, LogError, testOf]
    · simp [testOf]
  · simp

theorem testsAtBoundaries_append (sock : Int) (a b : List Ev)
    (h : ∀ e ∈ a, testOf e = none) :
    testsAtBoundaries sock (a ++ b) = testsAtBoundaries sock b := by
  induction a with
  | nil => rfl
  | cons e t ih =>
    have ht : ∀ x ∈ t, testOf x = none := fun x hx => h x (List.mem_cons_of_mem _ hx)
    have he : testOf e = none := h e (List.mem_cons_self _ _)
    cases e <;> first
      | (simp [testOf] at he; done)
      | (simpa [testsAtBoundaries] using ih ht)

theorem testsAtBoundaries_test_set (sock v : Int) (hv : v ≠ 0) (rest : List Ev) :
    testsAtBoundaries sock (Ev.test v :: Ev.receive sock :: rest)
      = testsAtBoundaries sock (Ev.receive sock :: rest) := by
  simp [testsAtBoundaries, hv]

theorem testsAtBoundaries_receive (sock s : Int) (rest : List Ev) :
    testsAtBoundaries sock (Ev.receive s :: rest) = testsAtBoundaries sock rest := by
  simp [testsAtBoundaries]

theorem testValues_append (a b : List Ev) : testValues (a ++ b) = testValues a ++ testValues b := by
  simp [testValues]

theorem testValues_noTest (a : List Ev) (h : ∀ e ∈ a, testOf e = none) : testValues a = [] := by
  simpa [testValues, List.filterMap_eq_nil_iff] using h

/-- One pass of the loop whose condition reads a set flag. -/
theorem receiverLoop_set (options : ModeOptions) (sock : Int) (env : ReceiverEnv)
    (fuel k : Nat) (f : Int) (h : flagAfter (env.atBoundary k) f ≠ 0) :
    receiverLoop options sock env (fuel + 1) k f
      = { result := (receiverLoop options sock env fuel (k + 1)
            (if options.isPersistent = 0 then 0
             else flagAfter (env.inBody k) (flagAfter (env.atBoundary k) f))).result
          trace := signalEvents (env.atBoundary k)
            ++ Ev.test (flagAfter (env.atBoundary k) f) :: iteration options sock env k
            ++ signalEvents (env.inBody k)
            ++ (receiverLoop options sock env fuel (k + 1)
                (if options.isPersistent = 0 then 0
                 else flagAfter (env.inBody k) (flagAfter (env.atBoundary k) f))).trace } := by
  simp [receiverLoop, h]

/-- One pass of the loop whose condition reads a cleared flag. -/
theorem receiverLoop_clear (options : ModeOptions) (sock : Int) (env : ReceiverEnv)
    (fuel k : Nat) (f : Int) (h : flagAfter (env.atBoundary k) f = 0) :
    receiverLoop options sock env (fuel + 1) k f
      = { result := some 1, trace := signalEvents (env.atBoundary k) ++ [Ev.test 0] } := by
  simp [receiverLoop, h]

theorem receiveCount_block (options : ModeOptions) (sock : Int) (env : ReceiverEnv)
    (k : Nat) (v : Int) (rest : List Ev) :
    receiveCount (signalEvents (env.atBoundary k) ++ Ev.test v :: iteration options sock env k
        ++ signalEvents (env.inBody k) ++ rest) = receiveCount rest + 1 := by
  simp only [receiveCount_append, receiveCount_signalEvents, List.cons_append,
    receiveCount_cons_test, receiveCount_iteration]
  omega

theorem testValues_block (options : ModeOptions) (sock : Int) (env : ReceiverEnv)
    (k : Nat) (v : Int) (rest : List Ev) :
    testValues (signalEvents (env.atBoundary k) ++ Ev.test v :: iteration options sock env k
        ++ signalEvents (env.inBody k) ++ rest) = v :: testValues rest := by
  have h1 := testValues_noTest _ (testOf_signalEvents (env.atBoundary k))
  have h2 := testValues_noTest _ (testOf_signalEvents (env.inBody k))
  have h3 := testValues_noTest _ (testOf_dispatch options env k (env.received k))
  simp only [testValues] at h1 h2 h3
  simp [testValues, iteration, testOf, h1, h2, h3]

theorem testsAtBoundaries_block (options : ModeOptions) (sock : Int) (env : ReceiverEnv)
    (k : Nat) (v : Int) (hv : v ≠ 0) (rest : List Ev) :
    testsAtBoundaries sock (signalEvents (env.atBoundary k)
        ++ Ev.test v :: iteration options sock env k
        ++ signalEvents (env.inBody k) ++ rest) = testsAtBoundaries sock rest := by
  rw [List.append_assoc, List.append_assoc,
    testsAtBoundaries_append _ _ _ (testOf_signalEvents _)]
  simp only [List.cons_append, iteration]
  rw [testsAtBoundaries_test_set _ _ hv, testsAtBoundaries_receive,
    testsAtBoundaries_append _ _ _ (testOf_dispatch _ _ _ _),
    testsAtBoundaries_append _ _ _ (testOf_signalEvents _)]

theorem getLast?_append_some (a rest : List Ev) (x : Ev) (h : rest.getLast? = some x) :
    (a ++ rest).getLast? = some x := by
  simp [List.getLast?_append, h]

/-- In every run of the loop, each evaluation of the condition that reads a
set flag is directly followed by the receive, and one that reads a cleared
flag ends the trace. -/
theorem receiverLoop_testsAtBoundaries (options : ModeOptions) (sock : Int)
    (env : ReceiverEnv) (fuel : Nat) :
    ∀ k f, testsAtBoundaries sock (receiverLoop options sock env fuel k f).trace = true := by
  induction fuel with
  | zero => intro k f; rfl
  | succ n ih =>
    intro k f
    by_cases h : flagAfter (env.atBoundary k) f = 0
    · rw [receiverLoop_clear _ _ _ _ _ _ h,
        testsAtBoundaries_append _ _ _ (testOf_signalEvents _)]
      simp [testsAtBoundaries]
    · rw [receiverLoop_set _ _ _ _ _ _ h]
      simp only []
      rw [testsAtBoundaries_block _ _ _ _ _ h]
      exact ih _ _

/-- A persistent loop that reads a set flag at its next `fuel` boundaries is
still in the loop after them, having issued one receive at each; the values
read are those of `observedFrom`. -/
theorem receiverLoop_running (options : ModeOptions) (sock : Int) (env : ReceiverEnv)
    (hp : options.isPersistent ≠ 0) (fuel : Nat) :
    ∀ k f, (∀ j < fuel, observedFrom env k f j ≠ 0) →
      (receiverLoop options sock env fuel k f).result = none
        ∧ receiveCount (receiverLoop options sock env fuel k f).trace = fuel
        ∧ testValues (receiverLoop options sock env fuel k f).trace
            = (List.range fuel).map (observedFrom env k f) := by
  induction fuel with
  | zero => intro k f _; exact ⟨rfl, rfl, rfl⟩
  | succ n ih =>
    intro k f h
    have h0 : flagAfter (env.atBoundary k) f ≠ 0 := h 0 (Nat.succ_pos n)
    have hrest := ih (k + 1) (flagAfter (env.inBody k) (flagAfter (env.atBoundary k) f))
      (fun j hj => h (j + 1) (Nat.succ_lt_succ hj))
    rw [receiverLoop_set _ _ _ _ _ _ h0]
    simp only [hp, if_false]
    refine ⟨hrest.1, ?_, ?_⟩
    · rw [receiveCount_block, hrest.2.1]
    · rw [testValues_block, hrest.2.2, List.range_succ_eq_map]
      simp [observedFrom, Function.comp]

/-- A persistent loop that reads a set flag at its next `n` boundaries and a
cleared one at the boundary after them returns 1 there, after `n`
receives. -/
theorem receiverLoop_leaves (options : ModeOptions) (sock : Int) (env : ReceiverEnv)
    (hp : options.isPersistent ≠ 0) (n : Nat) :
    ∀ fuel k f, n < fuel → (∀ j < n, observedFrom env k f j ≠ 0) →
      observedFrom env k f n = 0 →
      (receiverLoop options sock env fuel k f).result = some 1
        ∧ receiveCount (receiverLoop options sock env fuel k f).trace = n
        ∧ (receiverLoop options sock env fuel k f).trace.getLast? = some (Ev.test 0)
        ∧ testValues (receiverLoop options sock env fuel k f).trace
            = (List.range (n + 1)).map (observedFrom env k f) := by
  induction n with
  | zero =>
    intro fuel k f hfuel _ hz
    obtain ⟨m, rfl⟩ : ∃ m, fuel = m + 1 := ⟨fuel - 1, by omega⟩
    have h0 : flagAfter (env.atBoundary k) f = 0 := hz
    rw [receiverLoop_clear _ _ _ _ _ _ h0]
    refine ⟨rfl, ?_, List.getLast?_concat _, ?_⟩
    · rw [receiveCount_append, receiveCount_signalEvents]
      rfl
    · rw [testValues_append, testValues_noTest _ (testOf_signalEvents _)]
      simp [testValues, testOf, List.range_succ, hz]
  | succ n ih =>
    intro fuel k f hfuel hset hz
    obtain ⟨m, rfl⟩ : ∃ m, fuel = m + 1 := ⟨fuel - 1, by omega⟩
    have h0 : flagAfter (env.atBoundary k) f ≠ 0 := hset 0 (Nat.succ_pos n)
    have hrest := ih m (k + 1) (flagAfter (env.inBody k) (flagAfter (env.atBoundary k) f))
      (by omega) (fun j hj => hset (j + 1) (Nat.succ_lt_succ hj)) hz
    rw [receiverLoop_set _ _ _ _ _ _ h0]
    simp only [hp, if_false]
    refine ⟨hrest.1, ?_, ?_, ?_⟩
    · rw [receiveCount_block, hrest.2.1]
    · exact getLast?_append_some _ _ _ hrest.2.2.1
    · rw [testValues_block, hrest.2.2.2, List.range_succ_eq_map (n + 1)]
      simp [observedFrom, Function.comp]

/-- A persistent loop has issued a receive at each of its first `n`
boundaries when they all read a set flag, whatever happens afterwards. -/
theorem receiverLoop_receives (options : ModeOptions) (sock : Int) (env : ReceiverEnv)
    (hp : options.isPersistent ≠ 0) (n : Nat) :
    ∀ fuel k f, n ≤ fuel → (∀ j < n, observedFrom env k f j ≠ 0) →
      n ≤ receiveCount (receiverLoop options sock env fuel k f).trace := by
  induction n with
  | zero => intro fuel k f _ _; exact Nat.zero_le _
  | succ n ih =>
    intro fuel k f hfuel hset
    obtain ⟨m, rfl⟩ : ∃ m, fuel = m + 1 := ⟨fuel - 1, by omega⟩
    have h0 : flagAfter (env.atBoundary k) f ≠ 0 := hset 0 (Nat.succ_pos n)
    have hrest := ih m (k + 1) (flagAfter (env.inBody k) (flagAfter (env.atBoundary k) f))
      (by omega) (fun j hj => hset (j + 1) (Nat.succ_lt_succ hj))
    rw [receiverLoop_set _ _ _ _ _ _ h0]
    simp only [hp, if_false]
    rw [receiveCount_block]
    omega

/-- A loop entered with the flag cleared evaluates the condition once and
returns 1 without a receive. -/
theorem receiverLoop_cleared (options : ModeOptions) (sock : Int) (env : ReceiverEnv)
    (fuel k : Nat) :
    receiverLoop options sock env (fuel + 1) k 0
      = { result := some 1, trace := signalEvents (env.atBoundary k) ++ [Ev.test 0] } := by
  simp [receiverLoop, flagAfter_zero]

/-! ### The properties of the specification -/

/-- C5 (descriptor remap in the forked child).  For every received
descriptor `r`, target slot `t` and command: when `dup2(r, t)` succeeds and
`r ≠ t`, the child's calls are `dup2(r, t)`, then `close(r)`, then `execvp`,
and `close(r)` is called exactly once; when `dup2` succeeds and `r = t`, the
calls are `dup2`, then `execvp`, with no `close` at all; when `dup2` fails
there is neither a `close` nor an `execvp` and the child ends with
`exit(EXIT_FAILURE)`. -/
theorem childPath_remap (strerror : List Char) (r t : Int) (argv : List (List Char))
    (dup2Ret : Int) (execvpReturns : Bool) :
    (dup2Ret ≠ -1 → r ≠ t →
      ∃ rest, childPath strerror r t argv dup2Ret execvpReturns
          = Ev.dup2 r t :: Ev.close r :: Ev.execvp argv.head? argv :: rest
        ∧ rest.countP isAnyClose = 0 ∧ rest.countP isExecvp = 0
        ∧ (childPath strerror r t argv dup2Ret execvpReturns).countP (isClose r) = 1)
    ∧ (dup2Ret ≠ -1 → r = t →
      ∃ rest, childPath strerror r t argv dup2Ret execvpReturns
          = Ev.dup2 r t :: Ev.execvp argv.head? argv :: rest
        ∧ rest.countP isExecvp = 0
        ∧ (childPath strerror r t argv dup2Ret execvpReturns).countP isAnyClose = 0)
    ∧ (dup2Ret = -1 →
      (childPath strerror r t argv dup2Ret execvpReturns).countP isAnyClose = 0
        ∧ (childPath strerror r t argv dup2Ret execvpReturns).countP isExecvp = 0
        ∧ (childPath strerror r t argv dup2Ret execvpReturns).getLast?
            = some (Ev.exit EXIT_FAILURE)) := by
  refine ⟨fun hd hne => ?_, fun hd heq => ?_, fun hd => ?_⟩
  · cases execvpReturns <;>
      simp [childPath, hd, hne, LogErrno, LogError, Die, isAnyClose, isExecvp, isClose,
        List.countP_cons]
  · cases execvpReturns <;>
      simp [childPath, hd, heq, LogErrno, LogError, Die, isAnyClose, isExecvp,
        List.countP_cons]
  · simp [childPath, hd, LogErrno, LogError, Die, isAnyClose, isExecvp, List.countP_cons]

/-- C2 (receiver dispatch).  Every pass of the loop of `ReceiverMode` whose
condition reads a set flag performs, between that evaluation and the next
boundary, exactly the calls of `iteration options sock env k`, and in
iteration `k`, with `d` the value `ReceiveDescriptor` returned: if `d ≠ -1`
and a child command is configured, the receiver calls `fork` once, the
child that call creates is handed exactly `(d, options.descriptor,
childArgv)` (a failed `fork` creates none and is logged), and the receiver
performs no `CopyStream` and no `close`; if `d ≠ -1` and no child command is
configured, the receiver calls `CopyStream(STDOUT_FILENO, d, 4096)` and then
`close(d)`, once, and does not fork; if `d = -1`, the iteration performs
none of `fork`, `CopyStream`, `close`. -/
theorem iteration_dispatch (options : ModeOptions) (sock : Int) (env : ReceiverEnv) (k : Nat) :
    (∀ fuel f, flagAfter (env.atBoundary k) f ≠ 0 →
      (receiverLoop options sock env (fuel + 1) k f).trace
        = signalEvents (env.atBoundary k)
            ++ Ev.test (flagAfter (env.atBoundary k) f) :: iteration options sock env k
            ++ signalEvents (env.inBody k)
            ++ (receiverLoop options sock env fuel (k + 1)
                (if options.isPersistent = 0 then 0
                 else flagAfter (env.inBody k) (flagAfter (env.atBoundary k) f))).trace)
    ∧ (env.received k ≠ -1 → ∀ argv, options.childArgv = some argv →
      iteration options sock env k
          = Ev.receive sock :: Ev.fork ::
              (if env.forkFails k then LogErrno env.strerror
               else [Ev.child (env.received k) options.descriptor argv])
        ∧ (iteration options sock env k).countP isFork = 1
        ∧ (iteration options sock env k).countP isCopyStream = 0
        ∧ (iteration options sock env k).countP isAnyClose = 0)
    ∧ (env.received k ≠ -1 → options.childArgv = none →
      iteration options sock env k
          = [Ev.receive sock, Ev.copyStream STDOUT_FILENO (env.received k) 4096,
              Ev.close (env.received k)]
        ∧ (iteration options sock env k).countP (isClose (env.received k)) = 1
        ∧ (iteration options sock env k).countP isAnyClose = 1
        ∧ (iteration options sock env k).countP isFork = 0)
    ∧ (env.received k = -1 →
      iteration options sock env k = [Ev.receive sock]
        ∧ (iteration options sock env k).countP isFork = 0
        ∧ (iteration options sock env k).countP isCopyStream = 0
        ∧ (iteration options sock env k).countP isAnyClose = 0) := by
  refine ⟨fun fuel f hf => ?_, fun hd argv ha => ?_, fun hd ha => ?_, fun hd => ?_⟩
  · rw [receiverLoop_set _ _ _ _ _ _ hf]
  · cases hf : env.forkFails k <;>
      simp [iteration, dispatch, hd, ha, hf, LogErrno, LogError, isFork, isCopyStream,
        isAnyClose, List.countP_cons]
  · simp [iteration, dispatch, hd, ha, isFork, isClose, isAnyClose, List.countP_cons]
  · simp [iteration, dispatch, hd, isFork, isCopyStream, isAnyClose, List.countP_cons]

/-- C3, as stated, fails: a receiver that is not persistent and has bound
its socket, and that handles a terminate signal between the installation of
the handlers and the first evaluation of `while(isRunning)`, returns 1
having made no call of `ReceiveDescriptor` at all (not exactly one). -/
theorem single_shot_counterexample :
    relayOptions.isPersistent = 0
      ∧ (CreateSock signalledEnv.sockEnv "/tmp/s".toList).sock ≠ -1
      ∧ ReceiverMode relayOptions signalledEnv 4
          = { result := some 1, trace := [Ev.signal SIGTERM, Ev.test 0] }
      ∧ receiveCount (ReceiverMode relayOptions signalledEnv 4).trace ≠ 1 := by
  have hsock : (CreateSock signalledEnv.sockEnv "/tmp/s".toList).sock = 3 := by decide
  have hrun : ReceiverMode relayOptions signalledEnv 4
      = { result := some 1, trace := [Ev.signal SIGTERM, Ev.test 0] } := by decide
  refine ⟨rfl, by rw [hsock]; decide, hrun, ?_⟩
  rw [hrun]
  decide

/-- C3, amended (single-shot receiver).  A receiver that is not persistent
and has bound its socket makes at most one call of `ReceiveDescriptor`,
under every schedule of interrupt and terminate signals and whatever the
calls return: exactly one when no signal is handled between the
installation of the handlers and the first evaluation of the loop
condition, none when one is.  In both cases the loop is then left (the
mode returns 1) at an evaluation of the condition that reads the flag
cleared, without a second receive. -/
theorem single_shot_receiver (options : ModeOptions) (env : ReceiverEnv) (path : List Char)
    (fuel : Nat) (hpath : options.socketPath = some path)
    (hbind : (CreateSock env.sockEnv path).sock ≠ -1) (hp : options.isPersistent = 0) :
    (ReceiverMode options env (fuel + 2)).result = some 1
      ∧ receiveCount (ReceiverMode options env (fuel + 2)).trace
          = (if env.atBoundary 0 = none then 1 else 0)
      ∧ (ReceiverMode options env (fuel + 2)).trace.getLast? = some (Ev.test 0)
      ∧ testsAtBoundaries (CreateSock env.sockEnv path).sock
          (ReceiverMode options env (fuel + 2)).trace = true := by
  have hmode : ReceiverMode options env (fuel + 2)
      = receiverLoop options (CreateSock env.sockEnv path).sock env (fuel + 2) 0 1 := by
    simp [ReceiverMode, hpath, hbind]
  rw [hmode]
  refine ⟨?_, ?_, ?_, receiverLoop_testsAtBoundaries _ _ _ _ _ _⟩
  all_goals cases hb : env.atBoundary 0 with
    | some sg =>
      rw [receiverLoop_clear _ _ _ _ _ _ (by rw [hb]; exact flagAfter_some _ _)]
      try first
        | exact List.getLast?_concat _
        | (rw [receiveCount_append, receiveCount_signalEvents]; simp [receiveCount, isReceive])
    | none =>
      rw [receiverLoop_set _ _ _ _ _ _ (by rw [hb]; simp [flagAfter_none]), if_pos hp,
        receiverLoop_cleared]
      try first
        | exact getLast?_append_some _ _ _ (List.getLast?_concat _)
        | (rw [receiveCount_block, receiveCount_append, receiveCount_signalEvents]
           simp [receiveCount, isReceive])

/-- C3 at a relay receiver on `/tmp/s` that handles no signal: one call of
`ReceiveDescriptor`, then the mode returns 1. -/
theorem single_shot_receiver_witness :
    relayOptions.socketPath = some "/tmp/s".toList
      ∧ (CreateSock quietEnv.sockEnv "/tmp/s".toList).sock ≠ -1
      ∧ relayOptions.isPersistent = 0
      ∧ (ReceiverMode relayOptions quietEnv 2).result = some 1
      ∧ receiveCount (ReceiverMode relayOptions quietEnv 2).trace = 1 :=
  ⟨rfl, by decide, rfl,
    (single_shot_receiver relayOptions quietEnv "/tmp/s".toList 0 rfl (by decide) rfl).1,
    by simpa [quietEnv] using
      (single_shot_receiver relayOptions quietEnv "/tmp/s".toList 0 rfl (by decide) rfl).2.1⟩

/-- C4 (persistent receiver).  For a persistent receiver that has bound its
socket, under every signal schedule and whatever `ReceiveDescriptor` and
`fork` return (`observed env n` is the flag read at boundary `n`):
(1) when the flag is still set at boundaries `0 .. n-1`, a receive has been
issued at each of them, and after `n` boundaries the loop has not been left;
(2) when moreover the flag is read cleared at boundary `n`, the mode returns
1 there, after exactly `n` receives, its last step being that evaluation of
the condition; (3) the loop is left only so: a run that returns has read the
flag cleared at a boundary; (4) every evaluation of the condition that reads
a set flag is directly followed by the receive and one that reads a cleared
flag ends the run, so the flag is tested at boundaries only, and the values
read are `observed env 0, observed env 1, ...`. -/
theorem persistent_receiver (options : ModeOptions) (env : ReceiverEnv) (path : List Char)
    (hpath : options.socketPath = some path)
    (hbind : (CreateSock env.sockEnv path).sock ≠ -1) (hp : options.isPersistent ≠ 0) :
    (∀ n fuel, n ≤ fuel → (∀ j < n, observed env j ≠ 0) →
        n ≤ receiveCount (ReceiverMode options env fuel).trace)
    ∧ (∀ n, (∀ j < n, observed env j ≠ 0) →
        (ReceiverMode options env n).result = none
          ∧ receiveCount (ReceiverMode options env n).trace = n)
    ∧ (∀ n fuel, n < fuel → (∀ j < n, observed env j ≠ 0) → observed env n = 0 →
        (ReceiverMode options env fuel).result = some 1
          ∧ receiveCount (ReceiverMode options env fuel).trace = n
          ∧ (ReceiverMode options env fuel).trace.getLast? = some (Ev.test 0))
    ∧ (∀ fuel v, (ReceiverMode options env fuel).result = some v →
        v = 1 ∧ ∃ n, n < fuel ∧ observed env n = 0 ∧ ∀ j < n, observed env j ≠ 0)
    ∧ (∀ fuel,
        testsAtBoundaries (CreateSock env.sockEnv path).sock
            (ReceiverMode options env fuel).trace = true
          ∧ testValues (ReceiverMode options env fuel).trace
              = (List.range (testValues (ReceiverMode options env fuel).trace).length).map
                  (observed env)) := by
  have hmode : ∀ fuel, ReceiverMode options env fuel
      = receiverLoop options (CreateSock env.sockEnv path).sock env fuel 0 1 := by
    intro fuel
    simp [ReceiverMode, hpath, hbind]
  have hfirst : ∀ fuel, ¬ (∀ j < fuel, observed env j ≠ 0) →
      ∃ n, n < fuel ∧ observed env n = 0 ∧ ∀ j < n, observed env j ≠ 0 := by
    intro fuel hno
    have hex : ∃ n, n < fuel ∧ observed env n = 0 := by
      by_contra hcon
      exact hno (fun j hj hz => hcon ⟨j, hj, hz⟩)
    refine ⟨Nat.find hex, (Nat.find_spec hex).1, (Nat.find_spec hex).2, ?_⟩
    intro j hj hz
    exact Nat.find_min hex hj ⟨lt_trans hj (Nat.find_spec hex).1, hz⟩
  refine ⟨?_, ?_, ?_, ?_, ?_⟩
  · intro n fuel hle hset
    rw [hmode]
    exact receiverLoop_receives options _ env hp n fuel 0 1 hle hset
  · intro n hset
    rw [hmode]
    have h := receiverLoop_running options (CreateSock env.sockEnv path).sock env hp n 0 1 hset
    exact ⟨h.1, h.2.1⟩
  · intro n fuel hlt hset hz
    rw [hmode]
    have h := receiverLoop_leaves options (CreateSock env.sockEnv path).sock env hp n
      fuel 0 1 hlt hset hz
    exact ⟨h.1, h.2.1, h.2.2.1⟩
  · intro fuel v hv
    rw [hmode] at hv
    by_cases hall : ∀ j < fuel, observed env j ≠ 0
    · have h := receiverLoop_running options (CreateSock env.sockEnv path).sock env hp
        fuel 0 1 hall
      rw [h.1] at hv
      cases hv
    · obtain ⟨n, hn, hz, hset⟩ := hfirst fuel hall
      have h := receiverLoop_leaves options (CreateSock env.sockEnv path).sock env hp n
        fuel 0 1 hn hset hz
      rw [h.1] at hv
      exact ⟨(Option.some.inj hv).symm, n, hn, hz, hset⟩
  · intro fuel
    rw [hmode]
    refine ⟨receiverLoop_testsAtBoundaries _ _ _ _ _ _, ?_⟩
    by_cases hall : ∀ j < fuel, observed env j ≠ 0
    · have h := receiverLoop_running options (CreateSock env.sockEnv path).sock env hp
        fuel 0 1 hall
      rw [h.2.2]
      simp [observed]
    · obtain ⟨n, hn, hz, hset⟩ := hfirst fuel hall
      have h := receiverLoop_leaves options (CreateSock env.sockEnv path).sock env hp n
        fuel 0 1 hn hset hz
      rw [h.2.2.2]
      simp [observed]

/-- C4 at a persistent receiver whose every receive fails and that handles
a terminate signal during its third iteration: the failures do not end the
loop, it returns at the fourth boundary, after three receives. -/
theorem persistent_receiver_witness :
    persistentOptions.socketPath = some "/tmp/s".toList
      ∧ (CreateSock failingEnv.sockEnv "/tmp/s".toList).sock ≠ -1
      ∧ persistentOptions.isPersistent ≠ 0
      ∧ (ReceiverMode persistentOptions failingEnv 3).result = none
      ∧ (ReceiverMode persistentOptions failingEnv 10).result = some 1
      ∧ receiveCount (ReceiverMode persistentOptions failingEnv 10).trace = 3 :=
  have h := persistent_receiver persistentOptions failingEnv "/tmp/s".toList rfl
    (by decide) (by decide)
  have hset : ∀ j < 3, observed failingEnv j ≠ 0 := by decide
  ⟨rfl, by decide, by decide, (h.2.1 3 hset).1,
    (h.2.2.1 3 10 (by decide) hset (by decide)).1,
    (h.2.2.1 3 10 (by decide) hset (by decide)).2.1⟩

set_option maxRecDepth 100000 in
/-- C10, as stated, fails: for a path of 108 characters on an empty
filesystem, the first `CreateSock(path)` removes nothing and binds the
first 107 characters of the path, and the second call, which again unlinks
the 108-character path, binds the same 107 characters and fails with
address-already-in-use: the address bound is not the one unlinked. -/
theorem createSock_twice_counterexample :
    (CreateSock quietSockEnv longPath).sock = 3
      ∧ (CreateSock quietSockEnv longPath).boundAddress = some (longPath.take 107)
      ∧ (CreateSock { quietSockEnv with fs := (CreateSock quietSockEnv longPath).fs }
            longPath).errno = some Errno.EADDRINUSE
      ∧ (CreateSock { quietSockEnv with fs := (CreateSock quietSockEnv longPath).fs }
            longPath).sock = -1
      ∧ longPath.take 107 ≠ longPath := by
  decide

/-- C10, amended (idempotent bind).  For every path shorter than
`sizeof(sun_path) - 1` characters, over a filesystem in which `bind` fails
with address-already-in-use exactly when an object exists at the address it
is given, neither of two successive calls `CreateSock(path)` fails with
address-already-in-use, whatever the filesystem held before and whatever
else the calls meet: a call that reaches `bind` binds the address `path`
itself, which its `unlink(path)` has just freed. -/
theorem createSock_twice (env1 env2 : SockEnv) (path : List Char)
    (hnul : ∀ c ∈ path, c ≠ NUL) (hlen : path.length < sunPathSize - 1) :
    (CreateSock env1 path).errno ≠ some Errno.EADDRINUSE
      ∧ (CreateSock { env2 with fs := (CreateSock env1 path).fs } path).errno
          ≠ some Errno.EADDRINUSE
      ∧ (∀ a, (CreateSock env1 path).boundAddress = some a →
          a = path ∧ a ∉ unlink env1.fs path)
      ∧ (∀ a, (CreateSock { env2 with fs := (CreateSock env1 path).fs } path).boundAddress
            = some a → a = path ∧ a ∉ unlink (CreateSock env1 path).fs path) := by
  have key : ∀ env : SockEnv, (CreateSock env path).errno ≠ some Errno.EADDRINUSE
      ∧ ∀ a, (CreateSock env path).boundAddress = some a →
          a = path ∧ a ∉ unlink env.fs path := by
    intro env
    have hc := cString_strncpy env.stack path (sunPathSize - 1) hnul hlen
    have hm := not_mem_unlink env.fs path
    by_cases hs : env.socketRet = -1
    · simp [CreateSock, hs]
    · cases hb : env.bindFailure with
      | none => simp [CreateSock, hs, hc, bind, hm, hb]
      | some code => simp [CreateSock, hs, hc, bind, hm, hb]
  exact ⟨(key env1).1, (key _).1, (key env1).2, (key _).2⟩

/-- C10 at `/tmp/s` on a filesystem that already holds an object there:
both calls bind. -/
theorem createSock_twice_witness :
    (∀ c ∈ "/tmp/s".toList, c ≠ NUL) ∧ "/tmp/s".toList.length < sunPathSize - 1
      ∧ (CreateSock { quietSockEnv with fs := ["/tmp/s".toList] } "/tmp/s".toList).errno
          ≠ some Errno.EADDRINUSE
      ∧ (CreateSock { quietSockEnv with
            fs := (CreateSock { quietSockEnv with fs := ["/tmp/s".toList] }
              "/tmp/s".toList).fs } "/tmp/s".toList).errno ≠ some Errno.EADDRINUSE :=
  ⟨by decide, by decide,
    (createSock_twice { quietSockEnv with fs := ["/tmp/s".toList] } quietSockEnv
      "/tmp/s".toList (by decide) (by decide)).1,
    (createSock_twice { quietSockEnv with fs := ["/tmp/s".toList] } quietSockEnv
      "/tmp/s".toList (by decide) (by decide)).2.1⟩

/-- C6 (sender failure paths).  For every `ModeOptions` and whatever the
system calls return: `SenderMode` returns 1 if and only if the source
descriptor was resolved (no file configured, or `open` did not return -1),
`Connect` returned a socket and `SendDescriptor` on that socket and the
resolved descriptor returned 0; when a file is configured and `open` fails
it returns 0 after `open` and the error log only (no `socket`, `connect`,
`sendmsg`); when `Connect` returns -1 it returns 0 without a `sendmsg` and
without an `exit`; and no run makes more than one `sendmsg`. -/
theorem sender_failure_paths (options : ModeOptions) (env : SenderEnv) :
    ((SenderMode options env).outcome = Outcome.returned 1 ↔
        (options.file = none ∨ env.openRet ≠ -1)
          ∧ ∃ sock, (Connect env.connectEnv options.socketPath).1 = Outcome.returned sock
              ∧ sock ≠ -1
              ∧ (SendDescriptor env.base env.strerror env.sendmsg sock
                  (sourceDescriptor options env)).outcome = Outcome.returned 0)
      ∧ (∀ file, options.file = some file → env.openRet = -1 →
          (SenderMode options env).outcome = Outcome.returned 0
            ∧ (SenderMode options env).trace = Ev.openRdonly file :: LogErrno env.strerror
            ∧ (SenderMode options env).trace.countP isSocket = 0
            ∧ (SenderMode options env).trace.countP isConnect = 0
            ∧ (SenderMode options env).trace.countP isSendmsg = 0)
      ∧ ((options.file = none ∨ env.openRet ≠ -1) →
          (Connect env.connectEnv options.socketPath).1 = Outcome.returned (-1) →
          (SenderMode options env).outcome = Outcome.returned 0
            ∧ (SenderMode options env).trace.countP isSendmsg = 0
            ∧ (SenderMode options env).trace.countP isExit = 0)
      ∧ (SenderMode options env).trace.countP isSendmsg ≤ 1 := by
  have ht := transfer_spec options env (sourceDescriptor options env)
  cases hf : options.file with
  | none =>
    have hd : sourceDescriptor options env = options.descriptor := by
      simp [sourceDescriptor, hf]
    rw [hd] at ht
    simp only [SenderMode, hf]
    refine ⟨?_, ?_, ?_, ht.2.2.1⟩
    · simpa [hd] using ht.1
    · intro file h
      cases h
    · intro _ hc
      exact ht.2.1 hc
  | some file =>
    have hd : sourceDescriptor options env = env.openRet := by
      simp [sourceDescriptor, hf]
    rw [hd] at ht
    by_cases ho : env.openRet = -1
    · simp [SenderMode, hf, ho, LogErrno, LogError, isSocket, isConnect, isSendmsg]
    · simp only [SenderMode, hf, ho, if_false]
      refine ⟨?_, ?_, ?_, ?_⟩
      · simpa [hd, ho] using ht.1
      · intro f _ h
        exact h.elim
      · intro _ hc
        have h := ht.2.1 hc
        simpa [isSendmsg, isExit] using h
      · simpa [isSendmsg] using ht.2.2.1

/-- C1 (transfer fidelity).  For every `int` descriptor `d` open in the
sender on resource `F`, over the channel `deliver`: the message
`SendDescriptor(sock, d)` hands to `sendmsg` has a one-byte body and exactly
one ancillary entry, with length `CMSG_LEN(sizeof(int))`, level
`SOL_SOCKET`, type `SCM_RIGHTS` and payload `d`; `SendDescriptor` returns 0;
the channel delivers the body unchanged and one ancillary entry whose
payload is a descriptor `d1` of the receiver; and `ReceiveDescriptor` on the
delivered message returns that `d1`, which refers to `F` in the receiver. -/
theorem transfer_fidelity (base rbase : Nat) (stack : Nat → Nat) (strerror : List Char)
    (sender receiver : FdTable) (sock rsock d : Int) (F : Resource)
    (h1 : -2 ^ 31 ≤ d) (h2 : d < 2 ^ 31) (hopen : resourceOf sender d = some F)
    (hrecv : receiver.length < 2 ^ 31) :
    ∃ m m1 receiver1 d1,
      (SendDescriptor base strerror (channelSendmsg sender receiver) sock d).message = some m
      ∧ m.body.length = 1
      ∧ ancillary m.control
          = [{ cmsg_len := CMSG_LEN sizeofInt, cmsg_level := SOL_SOCKET,
               cmsg_type := SCM_RIGHTS, data := intBytes d }]
      ∧ bytesInt (intBytes d) = d
      ∧ (SendDescriptor base strerror (channelSendmsg sender receiver) sock d).outcome
          = Outcome.returned 0
      ∧ deliver sender receiver m = some (m1, receiver1)
      ∧ m1.body = m.body
      ∧ (ancillary m1.control).map (fun c => bytesInt c.data) = [d1]
      ∧ (ReceiveDescriptor rbase stack strerror (some m1) rsock).outcome = Outcome.returned d1
      ∧ resourceOf receiver1 d1 = some F := by
  have hsend := SendDescriptor_eq base strerror (channelSendmsg sender receiver) sock d
  have hdel := deliver_controlImage sender receiver [0] d F h1 h2 hopen
  have hfree : bytesInt (intBytes (lowestFree receiver : Int)) = (lowestFree receiver : Int) := by
    have hle := lowestFree_le_length receiver
    apply bytesInt_intBytes
    · have : (0 : Int) ≤ (lowestFree receiver : Int) := Int.ofNat_nonneg _
      norm_num
      omega
    · have : ((lowestFree receiver : Nat) : Int) < (2 ^ 31 : Nat) := by
        exact_mod_cast lt_of_le_of_lt hle hrecv
      simpa using this
  have hret : ¬ channelSendmsg sender receiver { body := [0], control := controlImage d } < 0 := by
    simp [channelSendmsg, hdel]
  refine ⟨{ body := [0], control := controlImage d },
    { body := [0], control := controlImage (lowestFree receiver : Int) },
    installAt receiver (lowestFree receiver) F, (lowestFree receiver : Int),
    hsend.1, rfl, ancillary_controlImage d, bytesInt_intBytes d h1 h2, ?_, hdel, rfl, ?_, ?_,
    resourceOf_installAt receiver F⟩
  · rw [hsend.2.1, if_neg hret]
  · simp [ancillary_controlImage, hfree]
  · rw [ReceiveDescriptor_controlImage, hfree]

/-- C1 at a sender whose descriptor 3 is open on resource 42 and a
receiver with descriptors 0 to 2 open: the receiver gets descriptor 3 of
its own, on resource 42. -/
theorem transfer_fidelity_witness :
    (-2 ^ 31 : Int) ≤ 3 ∧ (3 : Int) < 2 ^ 31 ∧ resourceOf senderTable 3 = some 42
      ∧ receiverTable.length < 2 ^ 31
      ∧ ∃ m m1 receiver1 d1,
        (SendDescriptor 4096 [] (channelSendmsg senderTable receiverTable) 5 3).message = some m
        ∧ m.body.length = 1
        ∧ ancillary m.control
            = [{ cmsg_len := CMSG_LEN sizeofInt, cmsg_level := SOL_SOCKET,
                 cmsg_type := SCM_RIGHTS, data := intBytes 3 }]
        ∧ bytesInt (intBytes 3) = 3
        ∧ (SendDescriptor 4096 [] (channelSendmsg senderTable receiverTable) 5 3).outcome
            = Outcome.returned 0
        ∧ deliver senderTable receiverTable m = some (m1, receiver1)
        ∧ m1.body = m.body
        ∧ (ancillary m1.control).map (fun c => bytesInt c.data) = [d1]
        ∧ (ReceiveDescriptor 8192 (fun _ => 0) [] (some m1) 6).outcome = Outcome.returned d1
        ∧ resourceOf receiver1 d1 = some 42 :=
  ⟨by decide, by decide, by decide, by decide,
    transfer_fidelity 4096 8192 (fun _ => 0) [] senderTable receiverTable 5 6 3 42
      (by decide) (by decide) (by decide) (by decide)⟩

/-- C7 (missing ancillary data), as the code behaves.  For every message that
`recvmsg` delivers with fewer control bytes than a header (so that
`CMSG_FIRSTHDR` yields `NULL`), `CMSG_DATA(NULL)` is the address
`sizeof(struct cmsghdr)`, not `NULL`; the test `controlMessageData != NULL`
passes and `ReceiveDescriptor` loads an `int` from that address, outside the
control buffer: it does not return -1, as it does when `recvmsg` fails. -/
theorem ReceiveDescriptor_missing_header (base : Nat) (stack : Nat → Nat)
    (strerror : List Char) (m : Message) (sock : Int)
    (hbase : sizeofCmsghdr < base) (hnone : m.control.length < sizeofCmsghdr) :
    CMSG_FIRSTHDR { msg_iov := m.body.take sizeofInt, msg_control := base,
                    msg_controllen := min m.control.length (CMSG_SPACE sizeofInt) } = 0
      ∧ (ReceiveDescriptor base stack strerror (some m) sock).outcome
          = Outcome.fault sizeofCmsghdr
      ∧ (ReceiveDescriptor base stack strerror (some m) sock).outcome ≠ Outcome.returned (-1)
      ∧ (ReceiveDescriptor base stack strerror none sock).outcome = Outcome.returned (-1) := by
  have hs : CMSG_SPACE sizeofInt = 24 := by decide
  have hmin : ¬ sizeofCmsghdr ≤ min m.control.length 24 := by
    have := Nat.min_le_left m.control.length 24
    omega
  have hb : ¬ base ≤ 16 := by
    simp only [sizeofCmsghdr] at hbase
    omega
  have hout : (ReceiveDescriptor base stack strerror (some m) sock).outcome
      = Outcome.fault sizeofCmsghdr := by
    simp only [sizeofCmsghdr] at hmin
    simp [ReceiveDescriptor, hs, CMSG_FIRSTHDR, CMSG_DATA, hmin, Buffer.load, sizeofCmsghdr, hb]
  refine ⟨?_, hout, ?_, rfl⟩
  · simp [CMSG_FIRSTHDR, hs, hmin]
  · rw [hout]
    simp

/-- C7 at a one-byte datagram without ancillary data, the control buffer at
address 8192: `ReceiveDescriptor` faults at address 16. -/
theorem ReceiveDescriptor_missing_header_witness :
    sizeofCmsghdr < 8192 ∧ plainDatagram.control.length < sizeofCmsghdr
      ∧ (ReceiveDescriptor 8192 (fun _ => 0) [] (some plainDatagram) 3).outcome
          = Outcome.fault 16 :=
  ⟨by decide, by decide,
    (ReceiveDescriptor_missing_header 8192 (fun _ => 0) [] plainDatagram 3
      (by decide) (by decide)).2.1⟩

/-- C8, as stated, fails: invoked as `sendfd -r /tmp/s` (`getopt` returns
`r`, then -1 with `/tmp/s` as the operand), the last explicit mode flag is
`-r`, receiver, and `main` runs `SenderMode`: the test of the invocation
name comes after the `getopt` loop and overwrites `mode`. -/
theorem mode_selection_counterexample :
    lastModeFlag [('r', [])] = some Mode.ReceiverMode
      ∧ MatchBaseName "sendfd".toList "sendfd".toList = true
      ∧ main (fun _ => none) "sendfd".toList [('r', [])] ["/tmp/s".toList]
          = MainOutcome.ran Mode.SenderMode
              { socketPath := some "/tmp/s".toList, file := none, childArgv := none,
                descriptor := 0, isPersistent := 0 } := by
  decide

/-- C8, amended (mode selection).  For every argument vector whose option
processing completes (`st` is the state of `main` after it): when the base
name of `argv[0]` is `sendfd`, `main` runs `SenderMode`, and when it is
`recvfd`, `ReceiverMode`, whatever mode flags were given; when it is
neither, `main` runs the mode of the last explicit mode flag; and when it
is neither and no mode flag was given, `main` dies with "Unknown mode.". -/
theorem mode_selection (sscanf : List Char → Option Int) (argv0 : List Char)
    (parsed : List (Char × List Char)) (operands : List (List Char)) (st : MainState)
    (hok : processOptions sscanf parsed operands = Except.ok st) :
    (MatchBaseName argv0 "sendfd".toList = true →
        main sscanf argv0 parsed operands = MainOutcome.ran Mode.SenderMode st.options)
      ∧ (MatchBaseName argv0 "sendfd".toList = false →
          MatchBaseName argv0 "recvfd".toList = true →
          main sscanf argv0 parsed operands = MainOutcome.ran Mode.ReceiverMode st.options)
      ∧ (MatchBaseName argv0 "sendfd".toList = false →
          MatchBaseName argv0 "recvfd".toList = false →
          ∀ m, lastModeFlag parsed = some m →
            main sscanf argv0 parsed operands = MainOutcome.ran m st.options)
      ∧ (MatchBaseName argv0 "sendfd".toList = false →
          MatchBaseName argv0 "recvfd".toList = false →
          lastModeFlag parsed = none →
            main sscanf argv0 parsed operands = MainOutcome.died "Unknown mode.".toList) := by
  have hmode := processOptions_mode sscanf parsed operands st hok
  refine ⟨fun hs => ?_, fun hs hr => ?_, fun hs hr m hm => ?_, fun hs hr hm => ?_⟩
  · simp only [main, hok, hs, ↓reduceIte]
  · simp only [main, hok, hs, hr, ↓reduceIte, Bool.false_eq_true]
  · simp only [main, hok, hs, hr, hmode, hm, ↓reduceIte, Bool.false_eq_true]
  · simp only [main, hok, hs, hr, hmode, hm, ↓reduceIte, Bool.false_eq_true]

/-- C8 at `prog -w -r /tmp/s`, a name that is neither `sendfd` nor
`recvfd`: the last mode flag, `-r`, decides. -/
theorem mode_selection_witness :
    processOptions (fun _ => none) [('w', []), ('r', [])] ["/tmp/s".toList]
        = Except.ok { mode := some Mode.ReceiverMode
                      options := { socketPath := some "/tmp/s".toList, file := none,
                                   childArgv := none, descriptor := 0, isPersistent := 0 }
                      isExecPresent := 0 }
      ∧ main (fun _ => none) "/usr/bin/prog".toList [('w', []), ('r', [])] ["/tmp/s".toList]
          = MainOutcome.ran Mode.ReceiverMode
              { socketPath := some "/tmp/s".toList, file := none, childArgv := none,
                descriptor := 0, isPersistent := 0 } :=
  ⟨rfl,
    (mode_selection (fun _ => none) "/usr/bin/prog".toList [('w', []), ('r', [])]
      ["/tmp/s".toList]
      { mode := some Mode.ReceiverMode
        options := { socketPath := some "/tmp/s".toList, file := none, childArgv := none,
                     descriptor := 0, isPersistent := 0 }
        isExecPresent := 0 } rfl).2.2.1 (by decide) (by decide) Mode.ReceiverMode
      (by decide)⟩

end RecvSendFd
